import Mathlib

/-!
Verification development for the neurobiological primitive estimator
(`src/lib.rs`).  The Rust core is shallowly embedded: `f64` becomes `ℝ`,
`DateTime<Utc>` becomes minutes since the Unix epoch as `ℤ` (the Rust code
reduces every time difference to whole minutes via `num_minutes()`, so at
minute granularity the embedding is exact), `HashMap<String, f64>` impact
maps become `Primitive → Option ℝ` (`none` = key absent), and the score /
confidence maps — whose key set is always exactly the seven primitive
names — become total functions `Primitive → ℝ`.  The interior-mutable
`current_adenosine_level` cell of `PrimitiveEstimator` is threaded as an
explicit state value.  The ranked `contributors` lists (explainability
output only) and the numeric interpolation inside `reason` strings are not
modelled; no other part of the pipeline is simplified.
-/

noncomputable section

namespace NeuroEst

/-- A JSON property value, restricted to the shapes the core reads
(`serde_json::Value` via `as_f64` / `as_str` / `as_bool`); `null` stands
for every other JSON shape, on which all three accessors fail. -/
inductive JVal where
  | num (x : ℝ)
  | str (s : String)
  | bool (b : Bool)
  | null

/-- `Event` from lib.rs: identity, category string, start timestamp,
optional end timestamp, open bag of properties. -/
structure Event where
  event_id : String
  event_type : String
  timestamp : ℤ
  end_timestamp : Option ℤ
  properties : List (String × JVal)

/-- `event.properties.get(key)` (HashMap lookup; property lists we build
have distinct keys, and `List.lookup` returns the first match). -/
def getProp (e : Event) (key : String) : Option JVal :=
  e.properties.lookup key

/-- `.and_then(|v| v.as_f64())`. -/
def propNum (e : Event) (key : String) : Option ℝ :=
  match getProp e key with
  | some (JVal.num x) => some x
  | _ => none

/-- `.and_then(|v| v.as_str())`. -/
def propStr (e : Event) (key : String) : Option String :=
  match getProp e key with
  | some (JVal.str s) => some s
  | _ => none

/-- `.and_then(|v| v.as_bool())`. -/
def propBool (e : Event) (key : String) : Option Bool :=
  match getProp e key with
  | some (JVal.bool b) => some b
  | _ => none

/-- Numeric property with named default (`.unwrap_or(d)`). -/
def numOr (e : Event) (key : String) (d : ℝ) : ℝ := (propNum e key).getD d

/-- String property with named default. -/
def strOr (e : Event) (key : String) (d : String) : String := (propStr e key).getD d

/-- Boolean property with named default. -/
def boolOr (e : Event) (key : String) (d : Bool) : Bool := (propBool e key).getD d

/-- `(estimation_time - t).num_minutes() as f64 / 60.0`. -/
def hoursAgo (est t : ℤ) : ℝ := ((est - t : ℤ) : ℝ) / 60

/-- chrono `timestamp.hour()`: hour-of-day in `[0, 24)` (floor conventions,
matching calendar time for all instants). -/
def hourOf (t : ℤ) : ℤ := (t.ediv 60).emod 24

/-- chrono `timestamp.minute()`. -/
def minuteOf (t : ℤ) : ℤ := t.emod 60

/-- `hour() as f64 + minute() as f64 / 60.0`. -/
def hourFrac (t : ℤ) : ℝ := ((hourOf t : ℤ) : ℝ) + ((minuteOf t : ℤ) : ℝ) / 60

/-- Rust `f64::clamp(lo, hi)` (for `lo ≤ hi`, over ℝ). -/
def rclamp (x lo hi : ℝ) : ℝ := min (max x lo) hi

/-- `PrimitiveEstimator::exponential_decay`:
`lambda = 0.693147 / half_life; exp(-lambda * hours_ago)`. -/
def exponential_decay (hours_ago half_life_hours : ℝ) : ℝ :=
  Real.exp (-(0.693147 / half_life_hours) * hours_ago)

/-- The closed seven-primitive enumeration. -/
inductive Primitive where
  | dopamine
  | norepinephrine
  | serotonin
  | adenosine
  | circadianPhase
  | cortisol
  | glucose
  deriving DecidableEq

/-- `Primitive::as_str`. -/
def Primitive.as_str : Primitive → String
  | .dopamine => "dopamine"
  | .norepinephrine => "norepinephrine"
  | .serotonin => "serotonin"
  | .adenosine => "adenosine"
  | .circadianPhase => "circadian_phase"
  | .cortisol => "cortisol"
  | .glucose => "glucose"

/-- `Primitive::all()`. -/
def Primitive.allList : List Primitive :=
  [.dopamine, .norepinephrine, .serotonin, .adenosine, .circadianPhase, .cortisol, .glucose]

/-- Baseline constants installed by `PrimitiveEstimator::new`. -/
def baseline : Primitive → ℝ
  | .dopamine => 0.5
  | .norepinephrine => 0.5
  | .serotonin => 0.5
  | .adenosine => 0.3
  | .circadianPhase => 0.5
  | .cortisol => 0.4
  | .glucose => 0.5

/-- `ContextConfig::for_primitive`: lookback window in hours. -/
def windowHours : Primitive → ℤ
  | .glucose => 8
  | .norepinephrine => 12
  | .adenosine => 20
  | .cortisol => 48
  | .dopamine => 72
  | .serotonin => 96
  | .circadianPhase => 168

/-- `ContextConfig::for_primitive`: decay half-life in hours. -/
def halfLifeOf : Primitive → ℝ
  | .glucose => 2.0
  | .norepinephrine => 4.0
  | .adenosine => 16.0
  | .cortisol => 12.0
  | .dopamine => 24.0
  | .serotonin => 36.0
  | .circadianPhase => 72.0

/-- `ContextConfig::acute_for_monoamine`: window. -/
def acuteWindowHours : Primitive → ℤ
  | .dopamine => 12
  | .serotonin => 16
  | p => windowHours p

/-- `ContextConfig::acute_for_monoamine`: half-life. -/
def acuteHalfLife : Primitive → ℝ
  | .dopamine => 6.0
  | .serotonin => 8.0
  | p => halfLifeOf p

/-- `ContextConfig::chronic_for_monoamine`: window. -/
def chronicWindowHours : Primitive → ℤ
  | .dopamine => 72
  | .serotonin => 96
  | p => windowHours p

/-- `ContextConfig::chronic_for_monoamine`: half-life. -/
def chronicHalfLife : Primitive → ℝ
  | .dopamine => 24.0
  | .serotonin => 36.0
  | p => halfLifeOf p

/-- Sleep quality bucket score used in `compute_sleep_impacts`. -/
def quality_score_of (q : String) : ℝ :=
  if q = "excellent" then 1
  else if q = "good" then 0.8
  else if q = "fair" then 0.6
  else if q = "poor" then 0.4
  else 0.8

/-- `compute_sleep_impacts`.  Always inserts adenosine, dopamine,
serotonin, cortisol, glucose and circadian keys; never norepinephrine. -/
def compute_sleep_impacts (e : Event) : Primitive → Option ℝ :=
  let duration := numOr e "duration_hours" 7.0
  let q := quality_score_of (strOr e "quality" "good")
  let eff := numOr e "sleep_efficiency" 0.85
  let hour_of_sleep : ℝ := ((hourOf e.timestamp : ℤ) : ℝ)
  fun p =>
    match p with
    | .adenosine => some (-(duration / 7.5) * q * 0.85)
    | .dopamine => some (if 7.0 ≤ duration then 0.3 * q
        else if 6.0 ≤ duration then 0.15 * q
        else -0.2 * (1 - q))
    | .serotonin => some (0.25 * q * min (duration / 7.5) 1)
    | .cortisol => some (if 0.7 ≤ q then -0.12 else 0.15 * (1 - q))
    | .glucose => some (if 6.0 ≤ duration ∧ 0.67 ≤ eff then 0.2
        else -0.3 * (1 - min (duration / 6.0) 1))
    | .circadianPhase => some (if 22.0 ≤ hour_of_sleep ∧ hour_of_sleep ≤ 24.0 then 0
        else if 0 ≤ hour_of_sleep ∧ hour_of_sleep ≤ 2.0 then 0.2 * (hour_of_sleep / 2.0)
        else 0)
    | .norepinephrine => none

/-- `compute_light_impacts` (the estimation-time argument is unused in the
source as well). -/
def compute_light_impacts (e : Event) (_est : ℤ) : Primitive → Option ℝ :=
  let intensity := numOr e "intensity_lux" 1000.0
  let duration_min := numOr e "duration_minutes" 30.0
  let hod : ℝ := ((hourOf e.timestamp : ℤ) : ℝ)
  let is_morning := 6.0 ≤ hod ∧ hod ≤ 11.0
  let is_evening := 18.0 ≤ hod ∧ hod ≤ 22.0
  fun p =>
    match p with
    | .circadianPhase => some
        (if 2000.0 ≤ intensity then
          (if is_morning then -0.8 * min (duration_min / 120.0) 1
           else if is_evening then 0.6 * min (duration_min / 120.0) 1
           else -0.2)
         else if 100.0 ≤ intensity then
          (if is_morning then -0.3 else if is_evening then 0.3 else 0)
         else 0)
    | .serotonin =>
        if is_morning ∧ 2000.0 ≤ intensity then
          some (0.25 * min (intensity / 10000.0) 1 * min (duration_min / 30.0) 1)
        else none
    | .cortisol =>
        if is_morning then
          some (if 5000.0 ≤ intensity then 0.08 else if 800.0 ≤ intensity then 0.05 else 0.02)
        else none
    | _ => none

/-- Glycemic-index bucket score in `compute_meal_impacts`. -/
def gi_score_of (g : String) : ℝ :=
  if g = "low" then 0.3 else if g = "medium" then 0.6 else if g = "high" then 1 else 0.6

/-- `compute_meal_impacts`. -/
def compute_meal_impacts (e : Event) : Primitive → Option ℝ :=
  let carbs := numOr e "carb_grams" 50.0
  let protein := numOr e "protein_grams" 20.0
  let protein_pct := numOr e "protein_percentage" 20.0
  let gi := gi_score_of (strOr e "glycemic_index" "medium")
  let meal_type := strOr e "meal_type" "lunch"
  let hour_of_meal : ℝ := ((hourOf e.timestamp : ℤ) : ℝ)
  fun p =>
    match p with
    | .glucose => some (if 50.0 ≤ protein then 0.1 + gi * 0.1 else 0.15 + gi * 0.15)
    | .serotonin => some
        (if protein_pct < 10.0 ∧ 40.0 < carbs then 0.35 * max (1 - protein_pct / 20.0) 0
         else if 25.0 < protein_pct then -0.15
         else 0.1)
    | .dopamine => some
        ((if 15.0 ≤ protein then 0.15 * min (protein / 50.0) 1 else 0.05) + gi * 0.1)
    | .circadianPhase => some
        (if meal_type = "breakfast" ∧ 6.0 ≤ hour_of_meal ∧ hour_of_meal ≤ 9.0 then 0.1
         else if meal_type = "dinner" ∧ 18.0 ≤ hour_of_meal ∧ hour_of_meal ≤ 20.0 then 0
         else if meal_type = "dinner" ∧ 21.0 ≤ hour_of_meal then 0.2
         else 0)
    | _ => none

/-- `compute_caffeine_impacts`. -/
def compute_caffeine_impacts (e : Event) : Primitive → Option ℝ :=
  let dose := numOr e "dose_mg" 100.0
  let a2a_occupancy := min (dose / (dose + 65.0)) 1
  fun p =>
    match p with
    | .adenosine => some (-0.5 * a2a_occupancy)
    | .dopamine => some (0.15 * min (dose / 200.0) 1)
    | .norepinephrine => some (0.25 * min (dose / 200.0) 1.3)
    | .cortisol => some (0.15 * min (dose / 200.0) 1)
    | .circadianPhase =>
        match propNum e "hours_before_intended_sleep" with
        | some hours =>
            if hours ≤ 6.0 then some (0.3 * min (dose / 200.0) 1 * (1 - hours / 6.0))
            else none
        | none => none
    | _ => none

/-- `compute_exercise_impacts`. -/
def compute_exercise_impacts (e : Event) : Primitive → Option ℝ :=
  let duration_min := numOr e "duration_minutes" 30.0
  let intensity_str := strOr e "intensity" "moderate"
  let vo2max_pct := numOr e "vo2max_percentage" 65.0
  let exercise_type := strOr e "type" "cardio"
  let intensity_pct :=
    if intensity_str = "light" then 40.0
    else if intensity_str = "moderate" then 65.0
    else if intensity_str = "vigorous" then 75.0
    else if intensity_str = "high_intensity" then 85.0
    else vo2max_pct
  fun p =>
    match p with
    | .dopamine => some
        (if exercise_type = "hiit" then 0.35 * min (duration_min / 45.0) 1
         else if 70.0 ≤ intensity_pct then 0.25 * min (duration_min / 60.0) 1
         else 0.15 * min (duration_min / 60.0) 1)
    | .norepinephrine => some
        (if 70.0 ≤ intensity_pct then 0.4 * (intensity_pct / 100.0) else 0.2)
    | .serotonin => some (0.2 * min (duration_min / 60.0) 1)
    | .cortisol => some
        (if 75.0 ≤ intensity_pct ∧ 45.0 ≤ duration_min then 0.2 else -0.08)
    | .glucose => some (-0.3 * (intensity_pct / 100.0) * min (duration_min / 60.0) 1)
    | _ => none

/-- `compute_nap_impacts`. -/
def compute_nap_impacts (e : Event) : Primitive → Option ℝ :=
  let duration_min := numOr e "duration_minutes" 20.0
  fun p =>
    match p with
    | .adenosine => some
        (if duration_min ≤ 30.0 then -0.25 * (duration_min / 30.0)
         else -0.4 * min (duration_min / 90.0) 1)
    | .circadianPhase => if 60.0 ≤ duration_min then some 0.15 else none
    | _ => none

/-- `compute_stress_impacts`. -/
def compute_stress_impacts (e : Event) : Primitive → Option ℝ :=
  let intensity_str := strOr e "intensity" "moderate"
  let intensity_score :=
    if intensity_str = "mild" then 0.3
    else if intensity_str = "moderate" then 0.6
    else if intensity_str = "high" then 1
    else if intensity_str = "severe" then 1.3
    else 0.6
  let controllable := boolOr e "controllable" false
  let social_evaluative := boolOr e "social_evaluative" false
  let cortisol_multiplier :=
    (if controllable then 1 else 1.4) * (if social_evaluative then 1.25 else 1)
  fun p =>
    match p with
    | .cortisol => some (min (0.25 * intensity_score * cortisol_multiplier) 0.55)
    | .norepinephrine => some (0.3 * intensity_score)
    | .dopamine => some (-0.2 * intensity_score)
    | .serotonin => some (-0.25 * intensity_score)
    | .glucose => some (min (0.25 * intensity_score * min (cortisol_multiplier / 2.0) 1.2) 0.4)
    | _ => none

/-- `compute_social_impacts`. -/
def compute_social_impacts (e : Event) : Primitive → Option ℝ :=
  let quality_str := strOr e "quality" "neutral"
  let quality_score :=
    if quality_str = "very_positive" then 1
    else if quality_str = "positive" then 0.7
    else if quality_str = "neutral" then 0
    else if quality_str = "negative" then -0.5
    else if quality_str = "very_negative" then -1
    else 0
  let duration_hours := numOr e "duration_minutes" 60.0 / 60.0
  fun p =>
    match p with
    | .serotonin => some
        (if 0 < quality_score then 0.3 * quality_score * min (duration_hours / 2.0) 1
         else 0.3 * quality_score)
    | .dopamine => if 0 < quality_score then some (0.2 * quality_score) else none
    | .cortisol => some
        (if 0 < quality_score then -0.2 * quality_score else -0.4 * quality_score)
    | _ => none

/-- `compute_screen_impacts`. -/
def compute_screen_impacts (e : Event) : Primitive → Option ℝ :=
  let blue_light_str := strOr e "blue_light_intensity" "medium"
  let blue_light_factor :=
    if blue_light_str = "low" then 0.3
    else if blue_light_str = "medium" then 0.6
    else if blue_light_str = "high" then 1
    else 0.6
  fun p =>
    match propNum e "hours_before_sleep" with
    | some hours =>
        if hours ≤ 3.0 then
          match p with
          | .circadianPhase => some (0.25 * blue_light_factor * (1 - hours / 3.0))
          | .adenosine => some (-0.15 * blue_light_factor)
          | _ => none
        else none
    | none => none

/-- `compute_interruption_impacts`. -/
def compute_interruption_impacts (e : Event) : Primitive → Option ℝ :=
  let frequency := numOr e "frequency" 3.0
  let stress_factor := min (frequency / 10.0) 1
  fun p =>
    match p with
    | .cortisol => some (0.2 * stress_factor)
    | .dopamine => some (-0.15 * stress_factor)
    | _ => none

/-- `PrimitiveEstimator::compute_event_impacts`: dispatch on the category
string; wake markers, health measurements and unknown categories produce
no direct impacts. -/
def compute_event_impacts (e : Event) (est : ℤ) : Primitive → Option ℝ :=
  if e.event_type = "sleep" then compute_sleep_impacts e
  else if e.event_type = "light_exposure" then compute_light_impacts e est
  else if e.event_type = "meal" then compute_meal_impacts e
  else if e.event_type = "caffeine" then compute_caffeine_impacts e
  else if e.event_type = "exercise" then compute_exercise_impacts e
  else if e.event_type = "nap" then compute_nap_impacts e
  else if e.event_type = "stress_event" then compute_stress_impacts e
  else if e.event_type = "social_interaction" then compute_social_impacts e
  else if e.event_type = "screen_time" then compute_screen_impacts e
  else if e.event_type = "interruption" then compute_interruption_impacts e
  else fun _ => none

/-- `MeasurementType` from lib.rs. -/
inductive MeasurementType where
  | heartRate
  | heartRateVariability
  | bloodOxygen
  | bloodGlucose
  | bodyTemperature
  | respiratoryRate
  | steps
  deriving DecidableEq

/-- `format!("{:?}", measurement_type)` used for `constraint_source`. -/
def MeasurementType.debugStr : MeasurementType → String
  | .heartRate => "HeartRate"
  | .heartRateVariability => "HeartRateVariability"
  | .bloodOxygen => "BloodOxygen"
  | .bloodGlucose => "BloodGlucose"
  | .bodyTemperature => "BodyTemperature"
  | .respiratoryRate => "RespiratoryRate"
  | .steps => "Steps"

/-- `PhysiologicalMeasurement` (the `unit` string is carried but unused
downstream). -/
structure PhysiologicalMeasurement where
  measurement_type : MeasurementType
  value : ℝ
  timestamp : ℤ
  unit : String

/-- `ConstraintType`. -/
inductive ConstraintType where
  | floor (v : ℝ)
  | ceiling (v : ℝ)
  | overrideWith (v : ℝ)
  | confidencePenalty (p : ℝ)

/-- `PhysiologicalConstraint` (the `reason` strings elide the interpolated
measurement values, which no downstream logic inspects). -/
structure PhysiologicalConstraint where
  source_measurement : MeasurementType
  source_value : ℝ
  affects_primitive : Primitive
  constraint_type : ConstraintType
  reason : String

/-- `generate_hrv_constraints`. -/
def generate_hrv_constraints (v : ℝ) (hours_ago : ℝ) : List PhysiologicalConstraint :=
  if 2.0 < hours_ago then []
  else
    (if v < 30.0 then
      [⟨.heartRateVariability, v, .cortisol, .floor 0.6,
        "Very low HRV indicates high stress/cortisol"⟩,
       ⟨.heartRateVariability, v, .adenosine, .confidencePenalty 0.7,
        "Low HRV suggests stress rather than pure sleep debt"⟩]
     else []) ++
    (if 70.0 < v then
      [⟨.heartRateVariability, v, .cortisol, .ceiling 0.4,
        "High HRV indicates low stress/cortisol"⟩]
     else [])

/-- `generate_hr_constraints`. -/
def generate_hr_constraints (v : ℝ) (hours_ago : ℝ) : List PhysiologicalConstraint :=
  if 1 < hours_ago then []
  else
    (if 80.0 < v then
      [⟨.heartRate, v, .norepinephrine, .floor 0.5,
        "Elevated HR indicates norepinephrine activity"⟩,
       ⟨.heartRate, v, .adenosine, .confidencePenalty 0.6,
        "High HR contradicts high sleep pressure"⟩]
     else []) ++
    (if v < 55.0 then
      [⟨.heartRate, v, .norepinephrine, .ceiling 0.4,
        "Low HR indicates low arousal/norepinephrine"⟩]
     else [])

/-- `generate_spo2_constraints`. -/
def generate_spo2_constraints (v : ℝ) (hours_ago : ℝ) : List PhysiologicalConstraint :=
  if v < 92.0 ∧ hours_ago < 8.0 then
    [⟨.bloodOxygen, v, .dopamine, .confidencePenalty 0.5,
      "Low SpO2 suggests impaired sleep quality affecting dopamine recovery"⟩]
  else []

/-- `generate_glucose_constraints`. -/
def generate_glucose_constraints (v : ℝ) (hours_ago : ℝ) : List PhysiologicalConstraint :=
  if 2.0 < hours_ago then []
  else
    (if v < 70.0 then
      [⟨.bloodGlucose, v, .cortisol, .floor 0.6,
        "Hypoglycemia triggers cortisol release"⟩,
       ⟨.bloodGlucose, v, .glucose, .overrideWith 0.2,
        "Direct glucose measurement (low)"⟩]
     else []) ++
    (if 70.0 ≤ v ∧ v ≤ 100.0 then
      [⟨.bloodGlucose, v, .glucose, .overrideWith (0.5 + rclamp ((v - 85.0) / 30.0) (-0.3) 0.3),
        "Direct glucose measurement (normal)"⟩]
     else []) ++
    (if 140.0 < v then
      [⟨.bloodGlucose, v, .glucose, .overrideWith 0.8,
        "Direct glucose measurement (high)"⟩]
     else [])

/-- `generate_temperature_constraints`. -/
def generate_temperature_constraints (v : ℝ) (hours_ago : ℝ) : List PhysiologicalConstraint :=
  if v < 36.5 ∧ hours_ago < 4.0 then
    [⟨.bodyTemperature, v, .circadianPhase, .confidencePenalty 0.8,
      "Low body temp indicates circadian nadir timing"⟩]
  else []

/-- `generate_respiratory_constraints`. -/
def generate_respiratory_constraints (v : ℝ) (hours_ago : ℝ) : List PhysiologicalConstraint :=
  if 1 < hours_ago then []
  else if 18.0 < v then
    [⟨.respiratoryRate, v, .cortisol, .floor 0.5,
      "Elevated respiratory rate indicates stress"⟩,
     ⟨.respiratoryRate, v, .serotonin, .confidencePenalty 0.7,
      "High respiratory rate suggests anxiety/low serotonin"⟩]
  else []

/-- `generate_steps_constraints`: gated to a 12-30 hour old reading. -/
def generate_steps_constraints (v : ℝ) (hours_ago : ℝ) : List PhysiologicalConstraint :=
  if hours_ago < 12 ∨ 30 < hours_ago then []
  else if v < 2000 then
    [⟨.steps, v, .dopamine, .confidencePenalty 0.6,
      "Very low activity contradicts high dopamine predictions"⟩]
  else []

/-- `PhysiologicalMeasurement::generate_constraints`. -/
def generate_constraints (m : PhysiologicalMeasurement) (est : ℤ) : List PhysiologicalConstraint :=
  let hours_ago := hoursAgo est m.timestamp
  match m.measurement_type with
  | .heartRateVariability => generate_hrv_constraints m.value hours_ago
  | .heartRate => generate_hr_constraints m.value hours_ago
  | .bloodOxygen => generate_spo2_constraints m.value hours_ago
  | .bloodGlucose => generate_glucose_constraints m.value hours_ago
  | .bodyTemperature => generate_temperature_constraints m.value hours_ago
  | .respiratoryRate => generate_respiratory_constraints m.value hours_ago
  | .steps => generate_steps_constraints m.value hours_ago

/-- Health event category → measurement type
(`extract_physiological_measurements` match). -/
def healthTypeOf (s : String) : Option MeasurementType :=
  if s = "health_heart_rate" then some .heartRate
  else if s = "health_hrv" then some .heartRateVariability
  else if s = "health_blood_oxygen" then some .bloodOxygen
  else if s = "health_blood_glucose" then some .bloodGlucose
  else if s = "health_body_temperature" then some .bodyTemperature
  else if s = "health_respiratory_rate" then some .respiratoryRate
  else if s = "health_steps" then some .steps
  else none

/-- One loop iteration of `extract_physiological_measurements`. -/
def extractOne (est : ℤ) (e : Event) : Option PhysiologicalMeasurement :=
  if e.timestamp < est - 1440 ∨ est < e.timestamp then none
  else
    match healthTypeOf e.event_type with
    | none => none
    | some mt =>
      match propNum e "value" with
      | none => none
      | some v => some ⟨mt, v, e.timestamp, strOr e "unit" ""⟩

/-- `PrimitiveEstimator::extract_physiological_measurements`: health events
within 24 hours before the query that carry a numeric value. -/
def extract_physiological_measurements (events : List Event) (est : ℤ) :
    List PhysiologicalMeasurement :=
  events.filterMap (extractOne est)

/-- An event that can ever yield a physiological measurement: a recognised
health category carrying a numeric value (the recency window aside). -/
def isHealthValueEvent (e : Event) : Bool :=
  (healthTypeOf e.event_type).isSome && (propNum e "value").isSome

/-- `PhysiologicalConstraintApplied`. -/
structure PhysiologicalConstraintApplied where
  primitive : String
  constraint_source : String
  original_score : ℝ
  adjusted_score : ℝ
  confidence_impact : ℝ
  reason : String

/-- Mutable state of the constraint-application loop: score map,
confidence map, applied-constraint records. -/
structure ValState where
  scores : Primitive → ℝ
  conf : Primitive → ℝ
  applied : List PhysiologicalConstraintApplied

/-- Pointwise update of a score map (HashMap insert). -/
def updFn (f : Primitive → ℝ) (p : Primitive) (v : ℝ) : Primitive → ℝ :=
  fun q => if q = p then v else f q

/-- One iteration of the constraint-application loop in
`apply_physiological_validation`. -/
def apply_one_constraint (st : ValState) (c : PhysiologicalConstraint) : ValState :=
  let pk := c.affects_primitive
  let cur := st.scores pk
  let step : ℝ × ℝ :=
    match c.constraint_type with
    | .floor v => if cur < v then (v, -0.2) else (cur, 0)
    | .ceiling v => if v < cur then (v, -0.2) else (cur, 0)
    | .overrideWith v => (v * 0.7 + cur * 0.3, 0.3)
    | .confidencePenalty q => (cur, -(1 - q))
  let new_score := step.1
  let confidence_impact := step.2
  { scores := updFn st.scores pk new_score
    conf := updFn st.conf pk (rclamp (st.conf pk + confidence_impact) 0.1 1)
    applied := st.applied ++
      (if 0.01 < |new_score - cur| ∨ 0.01 < |confidence_impact| then
        [⟨pk.as_str, c.source_measurement.debugStr, cur, new_score, confidence_impact, c.reason⟩]
       else []) }

/-- The constraint list accumulated over all measurements
(`all_constraints.extend(...)` loop). -/
def all_constraints (events : List Event) (est : ℤ) : List PhysiologicalConstraint :=
  (extract_physiological_measurements events est).foldl
    (fun acc m => acc ++ generate_constraints m est) []

/-- `PrimitiveEstimator::apply_physiological_validation`. -/
def apply_physiological_validation (scores : Primitive → ℝ) (events : List Event) (est : ℤ) :
    ValState :=
  if (extract_physiological_measurements events est).isEmpty then ⟨scores, fun _ => 1, []⟩
  else (all_constraints events est).foldl apply_one_constraint ⟨scores, fun _ => 1, []⟩

/-- Window test of the generic base-score pass:
`timestamp >= estimation_time - window && timestamp <= estimation_time`. -/
def inWindow (est : ℤ) (wh : ℤ) (t : ℤ) : Bool :=
  decide (est - wh * 60 ≤ t ∧ t ≤ est)

/-- Decayed contribution of one event to one primitive
(0 when the impact map has no entry for the primitive). -/
def decayedImpact (e : Event) (p : Primitive) (est : ℤ) (hl : ℝ) : ℝ :=
  match compute_event_impacts e est p with
  | some r => r * exponential_decay (hoursAgo est e.timestamp) hl
  | none => 0

/-- Accumulated decayed impact of the generic base-score pass. -/
def accumulated_impact (p : Primitive) (events : List Event) (est : ℤ) : ℝ :=
  ((events.filter (fun e => inWindow est (windowHours p) e.timestamp)).map
    (fun e => decayedImpact e p est (halfLifeOf p))).sum

/-- `compute_caffeine_dopamine_boost`: saturating plasma model, capped. -/
def compute_caffeine_dopamine_boost (events : List Event) (est : ℤ) : ℝ :=
  min
    (((events.filter (fun e =>
        decide (e.event_type = "caffeine") && inWindow est 12 e.timestamp)).map
      (fun e =>
        min (numOr e "dose_mg" 100.0 * Real.exp (-0.15 * hoursAgo est e.timestamp) / 100.0)
          0.25)).sum)
    0.4

/-- `cortisol_circadian_multiplier`: piecewise time-of-day factor. -/
def cortisol_circadian_multiplier (est : ℤ) : ℝ :=
  let h := hourFrac est
  if 0 ≤ h ∧ h < 2.0 then 0.25
  else if 2.0 ≤ h ∧ h < 6.0 then 0.25 + 0.35 * ((h - 2.0) / 4.0)
  else if 6.0 ≤ h ∧ h < 9.0 then
    (if (h - 6.0) / 3.0 < 0.5 then 0.6 + 0.4 * ((h - 6.0) / 3.0) * 2.0
     else 1 - 0.1 * ((h - 6.0) / 3.0 - 0.5) * 2.0)
  else if 9.0 ≤ h ∧ h < 12.0 then 0.9 - 0.2 * ((h - 9.0) / 3.0)
  else if 12.0 ≤ h ∧ h < 18.0 then 0.7 - 0.25 * ((h - 12.0) / 6.0)
  else if 18.0 ≤ h ∧ h < 22.0 then 0.45 - 0.15 * ((h - 18.0) / 4.0)
  else 0.3 - 0.05 * ((h - 22.0) / 2.0)

/-- The reverse scan of `cortisol_awakening_boost`: walk the log from the
end, stop at the first event older than the 2-hour lookback, skip events
after the query, return the first wake marker found. -/
def findRecentWake (est : ℤ) : List Event → Option ℤ
  | [] => none
  | e :: rest =>
    if e.timestamp < est - 120 then none
    else if est < e.timestamp then findRecentWake est rest
    else if e.event_type = "wake" then some e.timestamp
    else findRecentWake est rest

/-- `cortisol_awakening_boost` (CAR multiplier, 1 to 1.75). -/
def cortisol_awakening_boost (events : List Event) (est : ℤ) : ℝ :=
  match findRecentWake est events.reverse with
  | none => 1
  | some w =>
    let m : ℝ := ((est - w : ℤ) : ℝ)
    if m ≤ 60.0 then
      (if m ≤ 35.0 then 1 + 0.75 * (m / 35.0)
       else 1.75 - 0.35 * ((m - 35.0) / (60.0 - 35.0)))
    else if m ≤ 120.0 then 1.4 - 0.4 * ((m - 60.0) / 60.0)
    else 1

/-- One iteration of the wake-marker scan of `compute_adenosine_special`. -/
def wakeStep (est : ℤ) (acc : Option ℤ) (e : Event) : Option ℤ :=
  if est < e.timestamp then acc
  else if e.event_type = "wake" then some e.timestamp
  else if e.event_type = "sleep" then
    match e.end_timestamp with
    | some et => if et ≤ est then some et else acc
    | none => acc
  else acc

/-- The wake-marker fold of `compute_adenosine_special`: the last event in
log order that is a wake marker (its start) or a sleep with an end at or
before the query (its end). -/
def mostRecentWakeMarker (events : List Event) (est : ℤ) : Option ℤ :=
  events.foldl (wakeStep est) none

/-- Hours awake at the query (8.0 when no marker exists). -/
def hoursAwake (events : List Event) (est : ℤ) : ℝ :=
  match mostRecentWakeMarker events est with
  | some w => max (hoursAgo est w) 0
  | none => 8.0

/-- Sleep window test of the adenosine pass: the sleep end exists and lies
in the 20-hour window. -/
def adenosineSleepOk (est : ℤ) (e : Event) : Bool :=
  decide (e.event_type = "sleep") &&
    (match e.end_timestamp with
     | some et => decide (est - 1200 ≤ et ∧ et ≤ est)
     | none => false)

/-- Decayed sleep clearance of the adenosine pass (anchored to sleep end,
16-hour half-life). -/
def sleep_clearance (events : List Event) (est : ℤ) : ℝ :=
  ((events.filter (adenosineSleepOk est)).map (fun e =>
    (compute_sleep_impacts e Primitive.adenosine).getD 0 *
      exponential_decay (hoursAgo est (e.end_timestamp.getD e.timestamp)) 16.0)).sum

/-- Decayed caffeine suppression of the adenosine pass (12-hour window,
5-hour half-life). -/
def caffeine_suppression (events : List Event) (est : ℤ) : ℝ :=
  ((events.filter (fun e =>
      decide (e.event_type = "caffeine") && inWindow est 12 e.timestamp)).map
    (fun e =>
      (compute_caffeine_impacts e Primitive.adenosine).getD 0 *
        exponential_decay (hoursAgo est e.timestamp) 5.0)).sum

/-- Decayed nap clearance of the adenosine pass (20-hour window, 8-hour
half-life); the source adds it into the sleep-clearance accumulator. -/
def nap_clearance (events : List Event) (est : ℤ) : ℝ :=
  ((events.filter (fun e =>
      decide (e.event_type = "nap") && inWindow est 20 e.timestamp)).map
    (fun e =>
      (compute_nap_impacts e Primitive.adenosine).getD 0 *
        exponential_decay (hoursAgo est e.timestamp) 8.0)).sum

/-- `compute_adenosine_special` (score component). -/
def compute_adenosine_special (events : List Event) (est : ℤ) : ℝ :=
  let base_accumulation := rclamp (1 - Real.exp (-(hoursAwake events est) / 16.0)) 0 1
  rclamp
    (0.3 + base_accumulation + (sleep_clearance events est + nap_clearance events est) +
      caffeine_suppression events est)
    0 1

/-- Decayed light adjustment of the circadian pass (168-hour window,
72-hour half-life). -/
def light_adjustment (events : List Event) (est : ℤ) : ℝ :=
  ((events.filter (fun e =>
      decide (e.event_type = "light_exposure") && inWindow est 168 e.timestamp)).map
    (fun e =>
      (compute_light_impacts e est Primitive.circadianPhase).getD 0 *
        exponential_decay (hoursAgo est e.timestamp) 72.0)).sum

/-- The sleep events the circadian pass averages over: the first (up to)
seven sleep events in log order, with no window or recency filter. -/
def circadianSleepSample (events : List Event) : List Event :=
  (events.filter (fun e => decide (e.event_type = "sleep"))).take 7

/-- The averaged sleep-onset hour: seeded with the ideal 23:00 anchor and,
when at least one sleep event exists, divided by (count + 1). -/
def avg_sleep_hour (events : List Event) : ℝ :=
  let sample := circadianSleepSample events
  let total := sample.foldl (fun a e => a + ((hourOf e.timestamp : ℤ) : ℝ)) 23.0
  if 0 < sample.length then total / ((sample.length : ℝ) + 1) else total

/-- `compute_circadian_phase_special` (score component). -/
def compute_circadian_phase_special (events : List Event) (est : ℤ) : ℝ :=
  rclamp (0.5 + (avg_sleep_hour events - 23.0) / 10.0 + light_adjustment events est) 0 1

/-- `compute_monoamine_scores` (acute, chronic, combined). -/
def compute_monoamine_scores (p : Primitive) (events : List Event) (est : ℤ) : ℝ × ℝ × ℝ :=
  let chronicEvents :=
    events.filter (fun e => inWindow est (chronicWindowHours p) e.timestamp)
  let chronic_impact :=
    (chronicEvents.map (fun e => decayedImpact e p est (chronicHalfLife p))).sum
  let acute_impact :=
    (chronicEvents.map (fun e =>
      if hoursAgo est e.timestamp ≤ ((acuteWindowHours p : ℤ) : ℝ) then
        decayedImpact e p est (acuteHalfLife p)
      else 0)).sum
  let acute_score := rclamp (baseline p + acute_impact) 0 1
  let chronic_score := rclamp (baseline p + chronic_impact) 0 1
  (acute_score, chronic_score, rclamp (chronic_score * 0.7 + acute_score * 0.3) 0 1)

/-- `compute_base_score` (score component): generic decayed aggregation
with the adenosine / circadian special cases and the cortisol circadian
modulation. -/
def compute_base_score (p : Primitive) (events : List Event) (est : ℤ) : ℝ :=
  if p = .adenosine then compute_adenosine_special events est
  else if p = .circadianPhase then compute_circadian_phase_special events est
  else
    let acc0 := accumulated_impact p events est
    let acc :=
      if p = .dopamine then acc0 + compute_caffeine_dopamine_boost events est else acc0
    if p = .cortisol then
      let cm := cortisol_circadian_multiplier est
      let awakening := cortisol_awakening_boost events est
      let healthy_baseline := 0.15 + 0.50 * cm
      let stress_response := max acc 0 * awakening * (0.5 + 0.5 * cm)
      let relaxation_effect := max (min acc 0) (-0.15)
      rclamp (healthy_baseline + stress_response + relaxation_effect) 0.15 1
    else rclamp (baseline p + acc) 0 1

/-- `circadian_sleep_pressure` (the `%` on the nonnegative operands the
pipeline produces is floor-mod). -/
def circadian_sleep_pressure (hour_of_day phase : ℝ) : ℝ :=
  let x := hour_of_day + (phase - 0.5) * 4.0 + 24.0
  let adjusted_hour := x - 24.0 * (⌊x / 24.0⌋ : ℝ)
  let distance_from_sleep_peak := |adjusted_hour - 3.0|
  let distance_from_wake_peak := |adjusted_hour - 15.0|
  rclamp
    (if distance_from_sleep_peak < 6.0 then 0.7 + 0.3 * (1 - distance_from_sleep_peak / 6.0)
     else if distance_from_wake_peak < 3.0 then 0.2
     else 0.5)
    0 1

/-- `compute_sleep_drive`. -/
def compute_sleep_drive (adenosine circadian_phase : ℝ) (est : ℤ) : ℝ :=
  rclamp (adenosine * 0.6 + circadian_sleep_pressure (hourFrac est) circadian_phase * 0.4)
    0 1

/-- `DetectedSequence`. -/
structure DetectedSequence where
  pattern_name : String
  events : List String
  impact_on_primitive : String
  adjustment : ℝ

/-- The sleep events `detect_sequences` inspects: sleeps within the
72-hour window, in log order. -/
def recentSleepEvents (events : List Event) (est : ℤ) : List Event :=
  (events.filter (fun e => inWindow est 72 e.timestamp)).filter
    (fun e => decide (e.event_type = "sleep"))

/-- Poor/fair count over the first three recent sleep events in log order. -/
def poorSleepCount (events : List Event) (est : ℤ) : ℕ :=
  (((recentSleepEvents events est).take 3).filter (fun e =>
    decide (strOr e "quality" "good" = "poor" ∨ strOr e "quality" "good" = "fair"))).length

/-- `PrimitiveEstimator::detect_sequences`. -/
def detect_sequences (events : List Event) (est : ℤ) : List DetectedSequence :=
  if 2 ≤ (recentSleepEvents events est).length then
    if 2 ≤ poorSleepCount events est then
      [⟨"chronic_sleep_deprivation",
        ((recentSleepEvents events est).take 3).map Event.event_id, "dopamine", -0.2⟩,
       ⟨"chronic_sleep_deprivation",
        ((recentSleepEvents events est).take 3).map Event.event_id, "serotonin", -0.15⟩]
    else []
  else []

/-- The sequence-adjustment pass (PASS 3 of `estimate_at_time`): each
detected sequence adds its adjustment to the targeted map entry, clamped. -/
def apply_sequence_adjustments (base : Primitive → ℝ) (seqs : List DetectedSequence) :
    Primitive → ℝ :=
  seqs.foldl
    (fun m s => fun p =>
      if p.as_str = s.impact_on_primitive then rclamp (m p + s.adjustment) 0 1 else m p)
    base

/-- `apply_cross_primitive_modifiers`: modified score map plus the
(effective dopamine, effective serotonin) pair. -/
def apply_cross_primitive_modifiers (scores : Primitive → ℝ) :
    (Primitive → ℝ) × (ℝ × ℝ) :=
  let adenosine := scores .adenosine
  let cortisol := scores .cortisol
  let modified_dopamine :=
    rclamp
      (scores .dopamine + (if 0.6 < adenosine then -0.15 * (adenosine - 0.6) else 0) +
        (if 0.6 < cortisol then -0.2 * (cortisol - 0.6) else 0))
      0 1
  let modified_serotonin :=
    rclamp (scores .serotonin + (if 0.6 < cortisol then -0.15 * (cortisol - 0.6) else 0))
      0 1
  let modified : Primitive → ℝ := fun p =>
    if p = .dopamine then modified_dopamine
    else if p = .serotonin then modified_serotonin
    else scores p
  let effective_dopamine := max (modified_dopamine - modified_serotonin * 0.15) 0
  let effective_serotonin := max (modified_serotonin - modified_dopamine * 0.15) 0
  (modified, (effective_dopamine, effective_serotonin))

/-- `FunctionalState`. -/
structure FunctionalState where
  state_type : String
  description : String
  recommendations : List String

/-- `compute_functional_state` (recommendation texts abbreviated to their
first entries; no logic depends on them). -/
def compute_functional_state (dopamine serotonin : ℝ) : FunctionalState :=
  if 0.6 ≤ dopamine ∧ 0.6 ≤ serotonin then
    ⟨"Optimal", "Both motivation and mood are strong. Ideal state for productivity and well-being.",
     ["Maintain current patterns"]⟩
  else if 0.6 ≤ dopamine ∧ serotonin < 0.5 then
    ⟨"Driven but Anxious", "High motivation but low contentment. Risk of stress and burnout.",
     ["Practice stress-reduction techniques"]⟩
  else if dopamine < 0.5 ∧ 0.6 ≤ serotonin then
    ⟨"Content but Unmotivated", "Good mood but low drive. May struggle with initiation and focus.",
     ["Set small, concrete goals to build momentum"]⟩
  else
    ⟨"Depleted", "Both motivation and mood are low. Recovery is the priority.",
     ["Prioritize rest and sleep"]⟩

/-- `PrimitiveState` (the ranked contributors list, a pure explainability
output, is not modelled). -/
structure PrimitiveState where
  base_score : ℝ
  modified_score : ℝ
  confidence : ℝ
  acute_score : Option ℝ
  chronic_score : Option ℝ
  effective_score : Option ℝ

/-- `EstimationResult`; `da_over_ser` mirrors the Rust field named after
the dopamine/serotonin quotient. -/
structure EstimationResult where
  timestamp : ℤ
  primitives : Primitive → PrimitiveState
  detected_sequences : List DetectedSequence
  sleep_drive : ℝ
  da_over_ser : ℝ
  functional_state : FunctionalState
  physiological_constraints : List PhysiologicalConstraintApplied

/-- The cell value `PrimitiveEstimator::new` installs. -/
def initialAdenosineCell : ℝ := 0.3

/-- PASS 1 of `estimate_at_time`: the base-score map (adenosine first,
then circadian phase, the two monoamines via the acute/chronic pass, then
the remaining primitives via the generic pass). -/
def pass1_base_scores (events : List Event) (est : ℤ) : Primitive → ℝ := fun p =>
  match p with
  | .dopamine => (compute_monoamine_scores .dopamine events est).2.2
  | .serotonin => (compute_monoamine_scores .serotonin events est).2.2
  | p => compute_base_score p events est

/-- PASSES 3-4 of `estimate_at_time`: sequence adjustments followed by the
cross-primitive modifiers. -/
def cross_stage (events : List Event) (est : ℤ) : (Primitive → ℝ) × (ℝ × ℝ) :=
  apply_cross_primitive_modifiers
    (apply_sequence_adjustments (pass1_base_scores events est) (detect_sequences events est))

/-- PASS 5 of `estimate_at_time`: physiological validation applied to the
cross-modified scores. -/
def validation_stage (events : List Event) (est : ℤ) : ValState :=
  apply_physiological_validation (cross_stage events est).1 events est

/-- `PrimitiveEstimator::estimate_at_time`, with the interior-mutable
`current_adenosine_level` cell threaded explicitly: the input `cell` is the
cell value before the call and the second component of the output is the
cell value after the call (the source writes the pass-1 adenosine score
into the cell and never reads it). -/
def estimate_at_time (cell : ℝ) (events : List Event) (est : ℤ) :
    EstimationResult × ℝ :=
  let base := pass1_base_scores events est
  let cellAfter := base .adenosine
  let sleep_drive := compute_sleep_drive (base .adenosine) (base .circadianPhase) est
  let seqs := detect_sequences events est
  let cross := cross_stage events est
  let vs := validation_stage events est
  let dopamine_effective := cross.2.1
  let serotonin_effective := cross.2.2
  let quotient :=
    if 0.01 < serotonin_effective then dopamine_effective / serotonin_effective
    else dopamine_effective / 0.01
  let fs := compute_functional_state dopamine_effective serotonin_effective
  let prims : Primitive → PrimitiveState := fun p =>
    { base_score := base p
      modified_score := vs.scores p
      confidence := vs.conf p
      acute_score :=
        if p = .dopamine then some (compute_monoamine_scores .dopamine events est).1
        else if p = .serotonin then some (compute_monoamine_scores .serotonin events est).1
        else none
      chronic_score :=
        if p = .dopamine then some (compute_monoamine_scores .dopamine events est).2.1
        else if p = .serotonin then some (compute_monoamine_scores .serotonin events est).2.1
        else none
      effective_score :=
        if p = .dopamine then some dopamine_effective
        else if p = .serotonin then some serotonin_effective
        else none }
  (⟨est, prims, seqs, sleep_drive, quotient, fs, vs.applied⟩, cellAfter)

/-! ## Basic lemmas about the clamp and the decay kernel -/

theorem rclamp_le_right (x lo hi : ℝ) : rclamp x lo hi ≤ hi :=
  min_le_right _ _

theorem left_le_rclamp (x lo hi : ℝ) (h : lo ≤ hi) : lo ≤ rclamp x lo hi :=
  le_min (le_max_right _ _) h

theorem rclamp_mem (x lo hi : ℝ) (h : lo ≤ hi) :
    lo ≤ rclamp x lo hi ∧ rclamp x lo hi ≤ hi :=
  ⟨left_le_rclamp x lo hi h, rclamp_le_right x lo hi⟩

theorem rclamp_mono (x y lo hi : ℝ) (h : x ≤ y) :
    rclamp x lo hi ≤ rclamp y lo hi :=
  min_le_min (max_le_max h le_rfl) le_rfl

theorem rclamp_eq_self (x lo hi : ℝ) (h1 : lo ≤ x) (h2 : x ≤ hi) :
    rclamp x lo hi = x := by
  unfold rclamp
  rw [max_eq_left h1, min_eq_left h2]

theorem exponential_decay_pos (t hl : ℝ) : 0 < exponential_decay t hl :=
  Real.exp_pos _

theorem exponential_decay_zero (hl : ℝ) : exponential_decay 0 hl = 1 := by
  unfold exponential_decay
  rw [mul_zero, Real.exp_zero]

theorem exponential_decay_strict_anti (hl : ℝ) (hhl : 0 < hl) (t₁ t₂ : ℝ) (h : t₁ < t₂) :
    exponential_decay t₂ hl < exponential_decay t₁ hl := by
  unfold exponential_decay
  apply Real.exp_lt_exp.mpr
  have hc : (0 : ℝ) < 0.693147 / hl := by positivity
  nlinarith

theorem exponential_decay_le_one (t hl : ℝ) (hhl : 0 < hl) (ht : 0 ≤ t) :
    exponential_decay t hl ≤ 1 := by
  unfold exponential_decay
  rw [show (1 : ℝ) = Real.exp 0 by rw [Real.exp_zero]]
  apply Real.exp_le_exp.mpr
  have hc : (0 : ℝ) ≤ 0.693147 / hl := by positivity
  nlinarith

theorem exponential_decay_anti (hl : ℝ) (hhl : 0 < hl) (t₁ t₂ : ℝ) (h : t₁ ≤ t₂) :
    exponential_decay t₂ hl ≤ exponential_decay t₁ hl := by
  rcases eq_or_lt_of_le h with rfl | hlt
  · exact le_rfl
  · exact (exponential_decay_strict_anti hl hhl t₁ t₂ hlt).le

theorem exponential_decay_self (hl : ℝ) (h : hl ≠ 0) :
    exponential_decay hl hl = Real.exp (-0.693147) := by
  unfold exponential_decay
  rw [neg_mul, div_mul_cancel₀ _ h]

/-- Lower estimate for `exp (-0.693147)`: the truncated constant misses
`ln 2` by about `1.8e-7`, so the value exceeds `0.5` by at least `9e-8`. -/
theorem exp_neg_c_lower : (0.5 + 0.00000009 : ℝ) ≤ Real.exp (-0.693147) := by
  have hlog : (0.6931471803 : ℝ) < Real.log 2 := Real.log_two_gt_d9
  have hsplit : Real.exp (-0.693147) = Real.exp (Real.log 2 - 0.693147) / 2 := by
    rw [Real.exp_sub, Real.exp_log (by norm_num : (0 : ℝ) < 2), Real.exp_neg]
    ring
  have hexp : (Real.log 2 - 0.693147) + 1 ≤ Real.exp (Real.log 2 - 0.693147) :=
    Real.add_one_le_exp _
  rw [hsplit]
  nlinarith

/-- For a tiny positive argument the exponential stays below `1 + 2e-7`. -/
theorem exp_small_upper (t : ℝ) (h0 : 0 < t) (h1 : t < 0.00000019) :
    Real.exp t ≤ 1 + 0.0000002 := by
  have hneg : (1 - t : ℝ) ≤ Real.exp (-t) := by
    have := Real.add_one_le_exp (-t)
    linarith
  have hprod : (1 - t) * Real.exp t ≤ 1 := by
    have hmul : Real.exp (-t) * Real.exp t = 1 := by
      rw [Real.exp_neg]
      exact inv_mul_cancel₀ (Real.exp_pos t).ne'
    have hepos : (0 : ℝ) < Real.exp t := Real.exp_pos _
    nlinarith
  have h1t : (0 : ℝ) < 1 - t := by linarith
  nlinarith

/-- Upper estimate for `exp (-0.693147)`: it stays within `1e-7` of `0.5`. -/
theorem exp_neg_c_upper : Real.exp (-0.693147) ≤ (0.5 + 0.0000001 : ℝ) := by
  have hlog : Real.log 2 < (0.6931471808 : ℝ) := Real.log_two_lt_d9
  have hlog2 : (0.6931471803 : ℝ) < Real.log 2 := Real.log_two_gt_d9
  have hsplit : Real.exp (-0.693147) = Real.exp (Real.log 2 - 0.693147) / 2 := by
    rw [Real.exp_sub, Real.exp_log (by norm_num : (0 : ℝ) < 2), Real.exp_neg]
    ring
  have hub : Real.exp (Real.log 2 - 0.693147) ≤ 1 + 0.0000002 :=
    exp_small_upper _ (by linarith) (by linarith)
  rw [hsplit]
  linarith

/-! ## Claim theorems -/

/-- C2: `estimate_at_time` is a pure function of the event log and the
query timestamp: the result is independent of the incoming
`current_adenosine_level` cell value, and a repeated call (in the cell
state the first call leaves behind) returns the identical result. -/
theorem c2_estimator_pure (events : List Event) (est : ℤ) (c₁ c₂ : ℝ) :
    (estimate_at_time c₁ events est).1 = (estimate_at_time c₂ events est).1 ∧
    (estimate_at_time (estimate_at_time c₁ events est).2 events est).1 =
      (estimate_at_time c₁ events est).1 :=
  ⟨rfl, rfl⟩

/-- C3 (counterexample): the decay kernel uses the truncated constant
`0.693147` instead of `ln 2`, so at half-life 1 the one-half-life value
misses `0.5` by more than the claimed `1e-9` tolerance. -/
theorem c3_counterexample : ¬ |exponential_decay 1 1 - 0.5| ≤ 0.000000001 := by
  have h1 : exponential_decay 1 1 = Real.exp (-0.693147) :=
    exponential_decay_self 1 one_ne_zero
  have h2 := exp_neg_c_lower
  rw [not_le, h1, abs_of_nonneg (by linarith)]
  linarith

/-- C3 (amended): for every half-life `h > 0` the decay kernel equals `1`
at zero, is within `1e-7` (not `1e-9`) of `0.5` at one half-life, is
strictly decreasing in hours-ago, and is never negative. -/
theorem c3_decay_properties (h : ℝ) (hh : 0 < h) :
    exponential_decay 0 h = 1 ∧
    |exponential_decay h h - 0.5| ≤ 0.0000001 ∧
    (∀ t₁ t₂ : ℝ, t₁ < t₂ → exponential_decay t₂ h < exponential_decay t₁ h) ∧
    (∀ t : ℝ, 0 ≤ exponential_decay t h) := by
  refine ⟨exponential_decay_zero h, ?_, exponential_decay_strict_anti h hh,
    fun t => (exponential_decay_pos t h).le⟩
  rw [exponential_decay_self h hh.ne']
  have h2 := exp_neg_c_lower
  have h3 := exp_neg_c_upper
  rw [abs_of_nonneg (by linarith)]
  linarith

/-- C3 witness: the amended decay properties instantiated at half-life 1. -/
theorem c3_decay_properties_witness :
    (0 : ℝ) < 1 ∧
      (exponential_decay 0 1 = 1 ∧
       |exponential_decay 1 1 - 0.5| ≤ 0.0000001 ∧
       (∀ t₁ t₂ : ℝ, t₁ < t₂ → exponential_decay t₂ 1 < exponential_decay t₁ 1) ∧
       (∀ t : ℝ, 0 ≤ exponential_decay t 1)) :=
  ⟨by norm_num, c3_decay_properties 1 (by norm_num)⟩

/-- C7 (counterexample): the norepinephrine dose factor is
`min(dose/200, 1.3)`, which still grows between 200 mg and 260 mg, so it
does not saturate at the 200 mg-equivalent the claim states. -/
theorem c7_counterexample :
    compute_caffeine_impacts
        ⟨"c1", "caffeine", 0, none, [("dose_mg", JVal.num 260)]⟩ .norepinephrine =
      some 0.325 ∧
    compute_caffeine_impacts
        ⟨"c2", "caffeine", 0, none, [("dose_mg", JVal.num 200)]⟩ .norepinephrine =
      some 0.25 ∧
    (0.325 : ℝ) ≠ 0.25 := by
  refine ⟨?_, ?_, by norm_num⟩ <;>
    · simp only [compute_caffeine_impacts, numOr, propNum, getProp, List.lookup]
      norm_num

/-- C7 (amended): for a caffeine event with nonnegative dose `d`, the
adenosine impact is exactly `-0.5 * d/(d+65)`; the dopamine and cortisol
impacts scale with `min(d/200, 1)` (saturating at 200 mg); the
norepinephrine impact scales with `min(d/200, 1.3)` (saturating only at
260 mg); and a circadian phase-delay is emitted exactly when an
hours-before-intended-sleep property is present and at most 6. -/
theorem c7_caffeine_impacts (e : Event) (hd : 0 ≤ numOr e "dose_mg" 100.0) :
    compute_caffeine_impacts e .adenosine =
      some (-0.5 * (numOr e "dose_mg" 100.0 / (numOr e "dose_mg" 100.0 + 65.0))) ∧
    compute_caffeine_impacts e .dopamine =
      some (0.15 * min (numOr e "dose_mg" 100.0 / 200.0) 1) ∧
    compute_caffeine_impacts e .cortisol =
      some (0.15 * min (numOr e "dose_mg" 100.0 / 200.0) 1) ∧
    compute_caffeine_impacts e .norepinephrine =
      some (0.25 * min (numOr e "dose_mg" 100.0 / 200.0) 1.3) ∧
    (∀ h, propNum e "hours_before_intended_sleep" = some h → h ≤ 6.0 →
      compute_caffeine_impacts e .circadianPhase =
        some (0.3 * min (numOr e "dose_mg" 100.0 / 200.0) 1 * (1 - h / 6.0))) ∧
    (∀ h, propNum e "hours_before_intended_sleep" = some h → ¬ h ≤ 6.0 →
      compute_caffeine_impacts e .circadianPhase = none) ∧
    (propNum e "hours_before_intended_sleep" = none →
      compute_caffeine_impacts e .circadianPhase = none) := by
  have hocc : min (numOr e "dose_mg" 100.0 / (numOr e "dose_mg" 100.0 + 65.0)) 1 =
      numOr e "dose_mg" 100.0 / (numOr e "dose_mg" 100.0 + 65.0) := by
    apply min_eq_left
    rw [div_le_iff₀ (by linarith : (0:ℝ) < numOr e "dose_mg" 100.0 + 65.0)]
    nlinarith
  refine ⟨?_, rfl, rfl, rfl, ?_, ?_, ?_⟩
  · simp only [compute_caffeine_impacts, hocc]
  · intro h hh hle
    simp only [compute_caffeine_impacts, hh, if_pos hle]
  · intro h hh hgt
    simp only [compute_caffeine_impacts, hh, if_neg hgt]
  · intro hn
    simp only [compute_caffeine_impacts, hn]

/-- C7 witness: the amended caffeine characterisation at a concrete
150 mg dose taken 3 hours before intended sleep. -/
theorem c7_caffeine_impacts_witness :
    (0 : ℝ) ≤ numOr
        ⟨"c3", "caffeine", 0, none,
          [("dose_mg", JVal.num 150), ("hours_before_intended_sleep", JVal.num 3)]⟩
        "dose_mg" 100.0 ∧
    compute_caffeine_impacts
        ⟨"c3", "caffeine", 0, none,
          [("dose_mg", JVal.num 150), ("hours_before_intended_sleep", JVal.num 3)]⟩
        .adenosine =
      some (-0.5 * (150.0 / (150.0 + 65.0))) := by
  have hd : numOr
      ⟨"c3", "caffeine", 0, none,
        [("dose_mg", JVal.num 150), ("hours_before_intended_sleep", JVal.num 3)]⟩
      "dose_mg" 100.0 = 150 := by
    simp [numOr, propNum, getProp, List.lookup]
  refine ⟨by rw [hd]; norm_num, ?_⟩
  have := (c7_caffeine_impacts
    ⟨"c3", "caffeine", 0, none,
      [("dose_mg", JVal.num 150), ("hours_before_intended_sleep", JVal.num 3)]⟩
    (by rw [hd]; norm_num)).1
  rw [this, hd]
  norm_num

/-- C9: the dopamine/serotonin quotient in the estimation result always
divides by a denominator of at least `0.01`: the effective serotonin when
it exceeds `0.01`, the constant `0.01` otherwise, so no division by zero
can occur, for arbitrary event logs of arbitrarily-typed properties. -/
theorem c9_division_guard (cell : ℝ) (events : List Event) (est : ℤ) :
    ∃ d s denom : ℝ,
      ((estimate_at_time cell events est).1.primitives .dopamine).effective_score = some d ∧
      ((estimate_at_time cell events est).1.primitives .serotonin).effective_score = some s ∧
      0.01 ≤ denom ∧
      (estimate_at_time cell events est).1.da_over_ser = d / denom ∧
      (s ≤ 0.01 → denom = 0.01) ∧
      (0.01 < s → denom = s) := by
  refine ⟨(cross_stage events est).2.1, (cross_stage events est).2.2,
    max 0.01 (cross_stage events est).2.2, ?_, ?_, le_max_left _ _, ?_,
    fun h => max_eq_left h, fun h => max_eq_right h.le⟩
  · simp [estimate_at_time]
  · simp [estimate_at_time]
  · by_cases h : 0.01 < (cross_stage events est).2.2
    · simp only [estimate_at_time, if_pos h]
      rw [max_eq_right h.le]
    · simp only [estimate_at_time, if_neg h]
      rw [max_eq_left (le_of_not_lt h)]

/-- The constraint-application loop leaves the score and confidence of a
primitive no constraint targets untouched. -/
theorem foldl_untargeted (cs : List PhysiologicalConstraint) (p : Primitive)
    (h : ∀ c ∈ cs, c.affects_primitive ≠ p) (st : ValState) :
    (cs.foldl apply_one_constraint st).scores p = st.scores p ∧
    (cs.foldl apply_one_constraint st).conf p = st.conf p := by
  induction cs generalizing st with
  | nil => exact ⟨rfl, rfl⟩
  | cons c rest ih =>
    have hc' : p ≠ c.affects_primitive := fun hh => h c (List.mem_cons_self _ _) hh.symm
    have hstep : (apply_one_constraint st c).scores p = st.scores p ∧
        (apply_one_constraint st c).conf p = st.conf p := by
      constructor <;> simp [apply_one_constraint, updFn, hc']
    have hrest : ∀ c' ∈ rest, c'.affects_primitive ≠ p :=
      fun c' hm => h c' (List.mem_cons_of_mem _ hm)
    rw [List.foldl_cons]
    have hall := ih hrest (apply_one_constraint st c)
    exact ⟨hall.1.trans hstep.1, hall.2.trans hstep.2⟩

/-- C10: when physiological measurements exist within the 24-hour window,
the validation pass leaves every primitive that no generated constraint
targets with its score unchanged and its confidence exactly 1. -/
theorem c10_validation_frame (scores : Primitive → ℝ) (events : List Event) (est : ℤ)
    (p : Primitive)
    (hne : extract_physiological_measurements events est ≠ [])
    (hp : ∀ c ∈ all_constraints events est, c.affects_primitive ≠ p) :
    (apply_physiological_validation scores events est).scores p = scores p ∧
    (apply_physiological_validation scores events est).conf p = 1 := by
  unfold apply_physiological_validation
  rw [if_neg (by simpa using hne)]
  have h := foldl_untargeted (all_constraints events est) p hp ⟨scores, fun _ => 1, []⟩
  exact ⟨h.1, h.2⟩

/-- C10 witness: a log with one in-range HRV reading of 50 ms (which
generates no constraints) keeps the dopamine score and full confidence. -/
theorem c10_validation_frame_witness :
    extract_physiological_measurements
        [⟨"h1", "health_hrv", 0, none, [("value", JVal.num 50)]⟩] 60 ≠ [] ∧
    (apply_physiological_validation (fun _ => 0.5)
        [⟨"h1", "health_hrv", 0, none, [("value", JVal.num 50)]⟩] 60).scores .dopamine = 0.5 ∧
    (apply_physiological_validation (fun _ => 0.5)
        [⟨"h1", "health_hrv", 0, none, [("value", JVal.num 50)]⟩] 60).conf .dopamine = 1 := by
  have hone : extractOne 60 ⟨"h1", "health_hrv", 0, none, [("value", JVal.num 50)]⟩ =
      some ⟨.heartRateVariability, 50, 0, ""⟩ := rfl
  have hextract : extract_physiological_measurements
      [⟨"h1", "health_hrv", 0, none, [("value", JVal.num 50)]⟩] 60 =
      [⟨.heartRateVariability, 50, 0, ""⟩] := by
    simp [extract_physiological_measurements, List.filterMap_cons, hone]
  have hcons : all_constraints
      [⟨"h1", "health_hrv", 0, none, [("value", JVal.num 50)]⟩] 60 = [] := by
    rw [all_constraints, hextract]
    norm_num [generate_constraints, generate_hrv_constraints, hoursAgo]
  have hne : extract_physiological_measurements
      [⟨"h1", "health_hrv", 0, none, [("value", JVal.num 50)]⟩] 60 ≠ [] := by
    rw [hextract]; simp
  have hp : ∀ c ∈ all_constraints
      [⟨"h1", "health_hrv", 0, none, [("value", JVal.num 50)]⟩] 60,
      c.affects_primitive ≠ Primitive.dopamine := by
    rw [hcons]; simp
  exact ⟨hne,
    (c10_validation_frame (fun _ => 0.5) _ 60 .dopamine hne hp).1,
    (c10_validation_frame (fun _ => 0.5) _ 60 .dopamine hne hp).2⟩

/-! ## Range lemmas for every pipeline stage (claim C1) -/

theorem rclamp01_mem (x : ℝ) : 0 ≤ rclamp x 0 1 ∧ rclamp x 0 1 ≤ 1 :=
  rclamp_mem x 0 1 (by norm_num)

theorem adenosine_special_mem (events : List Event) (est : ℤ) :
    0 ≤ compute_adenosine_special events est ∧ compute_adenosine_special events est ≤ 1 := by
  unfold compute_adenosine_special
  exact rclamp01_mem _

theorem circadian_special_mem (events : List Event) (est : ℤ) :
    0 ≤ compute_circadian_phase_special events est ∧
      compute_circadian_phase_special events est ≤ 1 := by
  unfold compute_circadian_phase_special
  exact rclamp01_mem _

theorem monoamine_mem (p : Primitive) (events : List Event) (est : ℤ) :
    (0 ≤ (compute_monoamine_scores p events est).1 ∧
      (compute_monoamine_scores p events est).1 ≤ 1) ∧
    (0 ≤ (compute_monoamine_scores p events est).2.1 ∧
      (compute_monoamine_scores p events est).2.1 ≤ 1) ∧
    (0 ≤ (compute_monoamine_scores p events est).2.2 ∧
      (compute_monoamine_scores p events est).2.2 ≤ 1) := by
  unfold compute_monoamine_scores
  exact ⟨rclamp01_mem _, rclamp01_mem _, rclamp01_mem _⟩

theorem rclamp015_mem (x : ℝ) : 0 ≤ rclamp x 0.15 1 ∧ rclamp x 0.15 1 ≤ 1 :=
  ⟨le_trans (by norm_num) (left_le_rclamp x 0.15 1 (by norm_num)), rclamp_le_right x 0.15 1⟩

theorem base_score_mem (p : Primitive) (events : List Event) (est : ℤ) :
    0 ≤ compute_base_score p events est ∧ compute_base_score p events est ≤ 1 := by
  cases p <;>
    simp only [compute_base_score] <;>
    first
      | exact adenosine_special_mem events est
      | exact circadian_special_mem events est
      | exact rclamp015_mem _
      | exact rclamp01_mem _

theorem pass1_mem (events : List Event) (est : ℤ) (p : Primitive) :
    0 ≤ pass1_base_scores events est p ∧ pass1_base_scores events est p ≤ 1 := by
  cases p <;>
    simp only [pass1_base_scores] <;>
    first
      | exact (monoamine_mem _ events est).2.2
      | exact base_score_mem _ events est

theorem seq_adjust_mem (seqs : List DetectedSequence) (base : Primitive → ℝ)
    (hb : ∀ p, 0 ≤ base p ∧ base p ≤ 1) :
    ∀ p, 0 ≤ apply_sequence_adjustments base seqs p ∧
      apply_sequence_adjustments base seqs p ≤ 1 := by
  unfold apply_sequence_adjustments
  induction seqs generalizing base with
  | nil => exact hb
  | cons s rest ih =>
    rw [List.foldl_cons]
    apply ih
    intro p
    dsimp only
    split_ifs
    · exact rclamp01_mem _
    · exact hb p

theorem cross_modifiers_mem (scores : Primitive → ℝ)
    (h : ∀ p, 0 ≤ scores p ∧ scores p ≤ 1) :
    (∀ p, 0 ≤ (apply_cross_primitive_modifiers scores).1 p ∧
      (apply_cross_primitive_modifiers scores).1 p ≤ 1) ∧
    (0 ≤ (apply_cross_primitive_modifiers scores).2.1 ∧
      (apply_cross_primitive_modifiers scores).2.1 ≤ 1) ∧
    (0 ≤ (apply_cross_primitive_modifiers scores).2.2 ∧
      (apply_cross_primitive_modifiers scores).2.2 ≤ 1) := by
  simp only [apply_cross_primitive_modifiers]
  have hd := rclamp01_mem
    (scores .dopamine +
      (if 0.6 < scores .adenosine then -0.15 * (scores .adenosine - 0.6) else 0) +
      (if 0.6 < scores .cortisol then -0.2 * (scores .cortisol - 0.6) else 0))
  have hs := rclamp01_mem
    (scores .serotonin + (if 0.6 < scores .cortisol then -0.15 * (scores .cortisol - 0.6) else 0))
  refine ⟨fun p => ?_, ⟨le_max_right _ _, max_le (by linarith [hd.2, hs.1]) (by norm_num)⟩,
    ⟨le_max_right _ _, max_le (by linarith [hs.2, hd.1]) (by norm_num)⟩⟩
  by_cases h1 : p = Primitive.dopamine
  · subst h1
    rw [if_pos rfl]
    exact hd
  · rw [if_neg h1]
    by_cases h2 : p = Primitive.serotonin
    · subst h2
      rw [if_pos rfl]
      exact hs
    · rw [if_neg h2]
      exact h p

/-- Every floor, ceiling or override payload any measurement can generate
lies in `[0, 1]`. -/
theorem constraint_payload (m : PhysiologicalMeasurement) (est : ℤ)
    (c : PhysiologicalConstraint) (hc : c ∈ generate_constraints m est) :
    (∀ w, c.constraint_type = .floor w → 0 ≤ w ∧ w ≤ 1) ∧
    (∀ w, c.constraint_type = .ceiling w → 0 ≤ w ∧ w ≤ 1) ∧
    (∀ w, c.constraint_type = .overrideWith w → 0 ≤ w ∧ w ≤ 1) := by
  rcases m with ⟨mt, v, ts, u⟩
  have hr := rclamp_mem ((v - 85.0) / 30.0) (-0.3) 0.3 (by norm_num)
  cases mt <;>
    simp only [generate_constraints, generate_hrv_constraints, generate_hr_constraints,
      generate_spo2_constraints, generate_glucose_constraints,
      generate_temperature_constraints, generate_respiratory_constraints,
      generate_steps_constraints] at hc <;>
    split_ifs at hc <;>
    simp only [List.mem_append, List.mem_cons, List.not_mem_nil, or_false, false_or,
      or_assoc] at hc <;>
    first
      | exact hc.elim
      | (rcases hc with rfl | rfl | rfl | rfl <;>
          (refine ⟨fun w hw => ?_, fun w hw => ?_, fun w hw => ?_⟩ <;>
           cases hw <;>
           constructor <;>
           first
             | linarith [hr.1]
             | linarith [hr.2]
             | norm_num))
      | (rcases hc with rfl | rfl | rfl <;>
          (refine ⟨fun w hw => ?_, fun w hw => ?_, fun w hw => ?_⟩ <;>
           cases hw <;>
           constructor <;>
           first
             | linarith [hr.1]
             | linarith [hr.2]
             | norm_num))
      | (rcases hc with rfl | rfl <;>
          (refine ⟨fun w hw => ?_, fun w hw => ?_, fun w hw => ?_⟩ <;>
           cases hw <;>
           constructor <;>
           first
             | linarith [hr.1]
             | linarith [hr.2]
             | norm_num))
      | (rcases hc with rfl
         refine ⟨fun w hw => ?_, fun w hw => ?_, fun w hw => ?_⟩ <;>
           cases hw <;>
           constructor <;>
           first
             | linarith [hr.1]
             | linarith [hr.2]
             | norm_num)

theorem apply_one_constraint_mem (st : ValState) (c : PhysiologicalConstraint)
    (hsc : ∀ p, 0 ≤ st.scores p ∧ st.scores p ≤ 1)
    (hcf : ∀ p, 0.1 ≤ st.conf p ∧ st.conf p ≤ 1)
    (hpay : (∀ w, c.constraint_type = .floor w → 0 ≤ w ∧ w ≤ 1) ∧
      (∀ w, c.constraint_type = .ceiling w → 0 ≤ w ∧ w ≤ 1) ∧
      (∀ w, c.constraint_type = .overrideWith w → 0 ≤ w ∧ w ≤ 1)) :
    (∀ p, 0 ≤ (apply_one_constraint st c).scores p ∧ (apply_one_constraint st c).scores p ≤ 1) ∧
    (∀ p, 0.1 ≤ (apply_one_constraint st c).conf p ∧ (apply_one_constraint st c).conf p ≤ 1) := by
  constructor
  · intro p
    show 0 ≤ updFn st.scores c.affects_primitive _ p ∧ updFn st.scores c.affects_primitive _ p ≤ 1
    unfold updFn
    split_ifs with hp
    · rcases hct : c.constraint_type with w | w | w | w <;> dsimp only
      · split_ifs
        · exact hpay.1 w hct
        · exact hsc _
      · split_ifs
        · exact hpay.2.1 w hct
        · exact hsc _
      · have hw := hpay.2.2 w hct
        have hcur := hsc c.affects_primitive
        constructor <;> [nlinarith [hw.1, hcur.1]; nlinarith [hw.2, hcur.2]]
      · exact hsc _
    · exact hsc p
  · intro p
    show 0.1 ≤ updFn st.conf c.affects_primitive _ p ∧ updFn st.conf c.affects_primitive _ p ≤ 1
    unfold updFn
    split_ifs with hp
    · exact rclamp_mem _ 0.1 1 (by norm_num)
    · exact hcf p

theorem foldl_constraints_mem (cs : List PhysiologicalConstraint) (st : ValState)
    (hsc : ∀ p, 0 ≤ st.scores p ∧ st.scores p ≤ 1)
    (hcf : ∀ p, 0.1 ≤ st.conf p ∧ st.conf p ≤ 1)
    (hpay : ∀ c ∈ cs,
      (∀ w, c.constraint_type = .floor w → 0 ≤ w ∧ w ≤ 1) ∧
      (∀ w, c.constraint_type = .ceiling w → 0 ≤ w ∧ w ≤ 1) ∧
      (∀ w, c.constraint_type = .overrideWith w → 0 ≤ w ∧ w ≤ 1)) :
    (∀ p, 0 ≤ (cs.foldl apply_one_constraint st).scores p ∧
      (cs.foldl apply_one_constraint st).scores p ≤ 1) ∧
    (∀ p, 0.1 ≤ (cs.foldl apply_one_constraint st).conf p ∧
      (cs.foldl apply_one_constraint st).conf p ≤ 1) := by
  induction cs generalizing st with
  | nil => exact ⟨hsc, hcf⟩
  | cons c rest ih =>
    rw [List.foldl_cons]
    have hstep := apply_one_constraint_mem st c hsc hcf (hpay c (List.mem_cons_self _ _))
    exact ih _ hstep.1 hstep.2 (fun c' hm => hpay c' (List.mem_cons_of_mem _ hm))

theorem mem_foldl_append (g : PhysiologicalMeasurement → List PhysiologicalConstraint)
    (l : List PhysiologicalMeasurement) (init : List PhysiologicalConstraint)
    (c : PhysiologicalConstraint) :
    c ∈ l.foldl (fun acc m => acc ++ g m) init → c ∈ init ∨ ∃ m ∈ l, c ∈ g m := by
  induction l generalizing init with
  | nil => exact fun h => Or.inl h
  | cons m rest ih =>
    intro h
    rcases ih _ h with h' | ⟨m', hm', hc'⟩
    · rcases List.mem_append.mp h' with h'' | h''
      · exact Or.inl h''
      · exact Or.inr ⟨m, List.mem_cons_self _ _, h''⟩
    · exact Or.inr ⟨m', List.mem_cons_of_mem _ hm', hc'⟩

theorem mem_all_constraints (events : List Event) (est : ℤ) (c : PhysiologicalConstraint)
    (hc : c ∈ all_constraints events est) :
    ∃ m ∈ extract_physiological_measurements events est, c ∈ generate_constraints m est := by
  rcases mem_foldl_append _ _ _ _ hc with h | h
  · exact absurd h (List.not_mem_nil c)
  · exact h

theorem validation_mem (scores : Primitive → ℝ) (events : List Event) (est : ℤ)
    (h : ∀ p, 0 ≤ scores p ∧ scores p ≤ 1) :
    (∀ p, 0 ≤ (apply_physiological_validation scores events est).scores p ∧
      (apply_physiological_validation scores events est).scores p ≤ 1) ∧
    (∀ p, 0.1 ≤ (apply_physiological_validation scores events est).conf p ∧
      (apply_physiological_validation scores events est).conf p ≤ 1) := by
  unfold apply_physiological_validation
  split_ifs
  · exact ⟨h, fun p => by norm_num⟩
  · refine foldl_constraints_mem _ _ h (fun p => by norm_num) (fun c hc => ?_)
    rcases mem_all_constraints events est c hc with ⟨m, _, hmem⟩
    exact constraint_payload m est c hmem

/-- C1: every primitive state in the estimation result has base score,
modified score, acute score, chronic score and effective score in `[0,1]`
(vacuously reading absent optional fields as 0) and confidence in
`[0.1, 1]`, for every event log, query timestamp and incoming cell state. -/
theorem c1_result_ranges (cell : ℝ) (events : List Event) (est : ℤ) (p : Primitive) :
    (0 ≤ ((estimate_at_time cell events est).1.primitives p).base_score ∧
      ((estimate_at_time cell events est).1.primitives p).base_score ≤ 1) ∧
    (0 ≤ ((estimate_at_time cell events est).1.primitives p).modified_score ∧
      ((estimate_at_time cell events est).1.primitives p).modified_score ≤ 1) ∧
    (0.1 ≤ ((estimate_at_time cell events est).1.primitives p).confidence ∧
      ((estimate_at_time cell events est).1.primitives p).confidence ≤ 1) ∧
    (0 ≤ ((estimate_at_time cell events est).1.primitives p).acute_score.getD 0 ∧
      ((estimate_at_time cell events est).1.primitives p).acute_score.getD 0 ≤ 1) ∧
    (0 ≤ ((estimate_at_time cell events est).1.primitives p).chronic_score.getD 0 ∧
      ((estimate_at_time cell events est).1.primitives p).chronic_score.getD 0 ≤ 1) ∧
    (0 ≤ ((estimate_at_time cell events est).1.primitives p).effective_score.getD 0 ∧
      ((estimate_at_time cell events est).1.primitives p).effective_score.getD 0 ≤ 1) := by
  have hbase := pass1_mem events est
  have hadj := seq_adjust_mem (detect_sequences events est) _ hbase
  have hcross := cross_modifiers_mem _ hadj
  have hcross1 : ∀ q, 0 ≤ (cross_stage events est).1 q ∧ (cross_stage events est).1 q ≤ 1 := by
    intro q
    simpa [cross_stage] using hcross.1 q
  have heffd : 0 ≤ (cross_stage events est).2.1 ∧ (cross_stage events est).2.1 ≤ 1 := by
    simpa [cross_stage] using hcross.2.1
  have heffs : 0 ≤ (cross_stage events est).2.2 ∧ (cross_stage events est).2.2 ≤ 1 := by
    simpa [cross_stage] using hcross.2.2
  have hval := validation_mem (cross_stage events est).1 events est hcross1
  have hvalsc : ∀ q, 0 ≤ (validation_stage events est).scores q ∧
      (validation_stage events est).scores q ≤ 1 := by
    intro q
    simpa [validation_stage] using hval.1 q
  have hvalcf : ∀ q, 0.1 ≤ (validation_stage events est).conf q ∧
      (validation_stage events est).conf q ≤ 1 := by
    intro q
    simpa [validation_stage] using hval.2 q
  simp only [estimate_at_time]
  refine ⟨hbase p, hvalsc p, hvalcf p, ?_, ?_, ?_⟩
  · split_ifs <;>
      simp only [Option.getD_some, Option.getD_none] <;>
      first
        | exact (monoamine_mem _ events est).1
        | exact ⟨le_rfl, by norm_num⟩
  · split_ifs <;>
      simp only [Option.getD_some, Option.getD_none] <;>
      first
        | exact (monoamine_mem _ events est).2.1
        | exact ⟨le_rfl, by norm_num⟩
  · split_ifs <;>
      simp only [Option.getD_some, Option.getD_none] <;>
      first
        | exact heffd
        | exact heffs
        | exact ⟨le_rfl, by norm_num⟩

/-- C6 (counterexample): `detect_sequences` inspects the first three sleep
events in log order, not the three most recent.  Reversing a
chronologically ascending log of four in-window sleep events (poor, poor,
good, good) leaves the event set and therefore the three most recent
sleeps unchanged, yet the detector fires on one order (two entries) and
not on the other (none) — so no rule that reads the three most recent
sleep events can describe it. -/
theorem c6_counterexample :
    (detect_sequences
        [⟨"s1", "sleep", 100, none, [("quality", JVal.str "poor")]⟩,
         ⟨"s2", "sleep", 200, none, [("quality", JVal.str "poor")]⟩,
         ⟨"s3", "sleep", 300, none, [("quality", JVal.str "good")]⟩,
         ⟨"s4", "sleep", 400, none, [("quality", JVal.str "good")]⟩] 4320).length = 2 ∧
    detect_sequences
        ([⟨"s1", "sleep", 100, none, [("quality", JVal.str "poor")]⟩,
          ⟨"s2", "sleep", 200, none, [("quality", JVal.str "poor")]⟩,
          ⟨"s3", "sleep", 300, none, [("quality", JVal.str "good")]⟩,
          ⟨"s4", "sleep", 400, none, [("quality", JVal.str "good")]⟩].reverse) 4320 = [] := by
  constructor <;> rfl

/-- C6 (amended): the detected-sequence list of the estimation result is
exactly the chronic-sleep-deprivation rule evaluated on the first (up to)
three in-window sleep events in log order: when at least two in-window
sleep events exist and at least two of the first three have quality poor
or fair, exactly the dopamine -0.2 and serotonin -0.15 entries referencing
those first three event identities are emitted, and otherwise none. -/
theorem c6_sequence_rule (cell : ℝ) (events : List Event) (est : ℤ) :
    (estimate_at_time cell events est).1.detected_sequences =
      if 2 ≤ (recentSleepEvents events est).length then
        if 2 ≤ poorSleepCount events est then
          [⟨"chronic_sleep_deprivation",
            ((recentSleepEvents events est).take 3).map Event.event_id, "dopamine", -0.2⟩,
           ⟨"chronic_sleep_deprivation",
            ((recentSleepEvents events est).take 3).map Event.event_id, "serotonin", -0.15⟩]
        else []
      else [] :=
  rfl

/-- Every detected sequence targets dopamine or serotonin. -/
theorem detect_sequences_target (events : List Event) (est : ℤ) :
    ∀ s ∈ detect_sequences events est,
      s.impact_on_primitive = "dopamine" ∨ s.impact_on_primitive = "serotonin" := by
  intro s hs
  unfold detect_sequences at hs
  split_ifs at hs <;>
    simp only [List.mem_cons, List.not_mem_nil, or_false] at hs
  rcases hs with rfl | rfl
  · exact Or.inl rfl
  · exact Or.inr rfl

/-- The sequence-adjustment pass does not move primitives no sequence
targets. -/
theorem seq_adjust_other (seqs : List DetectedSequence) (base : Primitive → ℝ) (p : Primitive)
    (hp : ∀ s ∈ seqs, p.as_str ≠ s.impact_on_primitive) :
    apply_sequence_adjustments base seqs p = base p := by
  unfold apply_sequence_adjustments
  revert hp
  induction seqs generalizing base with
  | nil => intro _; rfl
  | cons s rest ih =>
    intro hp
    rw [List.foldl_cons]
    rw [ih _ (fun s' hm => hp s' (List.mem_cons_of_mem _ hm))]
    show (if p.as_str = s.impact_on_primitive then rclamp (base p + s.adjustment) 0 1
      else base p) = base p
    rw [if_neg (hp s (List.mem_cons_self _ _))]

/-- The only constraint kind ever generated against the circadian-phase
primitive is a confidence penalty. -/
theorem constraint_circadian_penalty (m : PhysiologicalMeasurement) (est : ℤ)
    (c : PhysiologicalConstraint) (hc : c ∈ generate_constraints m est)
    (hp : c.affects_primitive = .circadianPhase) :
    ∃ q, c.constraint_type = .confidencePenalty q := by
  rcases m with ⟨mt, v, ts, u⟩
  cases mt <;>
    simp only [generate_constraints, generate_hrv_constraints, generate_hr_constraints,
      generate_spo2_constraints, generate_glucose_constraints,
      generate_temperature_constraints, generate_respiratory_constraints,
      generate_steps_constraints] at hc <;>
    split_ifs at hc <;>
    simp only [List.mem_append, List.mem_cons, List.not_mem_nil, or_false, false_or,
      or_assoc] at hc <;>
    first
      | exact hc.elim
      | (rcases hc with rfl | rfl | rfl | rfl <;>
          first
            | exact ⟨0.8, rfl⟩
            | simp at hp)
      | (rcases hc with rfl | rfl | rfl <;>
          first
            | exact ⟨0.8, rfl⟩
            | simp at hp)
      | (rcases hc with rfl | rfl <;>
          first
            | exact ⟨0.8, rfl⟩
            | simp at hp)
      | (rcases hc with rfl
         first
           | exact ⟨0.8, rfl⟩
           | simp at hp)

/-- The constraint-application loop leaves the score of a primitive
untouched when every constraint targeting it is a confidence penalty. -/
theorem foldl_penalty_only (cs : List PhysiologicalConstraint) (p : Primitive)
    (hpen : ∀ c ∈ cs, c.affects_primitive = p → ∃ q, c.constraint_type = .confidencePenalty q)
    (st : ValState) :
    (cs.foldl apply_one_constraint st).scores p = st.scores p := by
  induction cs generalizing st with
  | nil => rfl
  | cons c rest ih =>
    rw [List.foldl_cons]
    rw [ih (fun c' hm => hpen c' (List.mem_cons_of_mem _ hm))]
    show updFn st.scores c.affects_primitive _ p = st.scores p
    unfold updFn
    split_ifs with hpk
    · rcases hpen c (List.mem_cons_self _ _) (hpk ▸ rfl) with ⟨q, hq⟩
      simp only [hq, hpk]
    · rfl

/-- The validation pass preserves any score only targeted by confidence
penalties. -/
theorem validation_preserves_score (scores : Primitive → ℝ) (events : List Event) (est : ℤ)
    (p : Primitive)
    (hpen : ∀ c ∈ all_constraints events est, c.affects_primitive = p →
      ∃ q, c.constraint_type = .confidencePenalty q) :
    (apply_physiological_validation scores events est).scores p = scores p := by
  unfold apply_physiological_validation
  split_ifs
  · rfl
  · exact foldl_penalty_only _ p hpen _

/-- C5 (amended): the circadian-phase base score of the estimation result
is the clamp to `[0,1]` of the 0.5 baseline, plus the phase offset from
the 23:00-seeded average of the first up-to-7 sleep events in log order
(no recency filter), plus the decayed light adjustments over the 168-hour
window with 72-hour half-life; and the modified circadian score always
equals the base score (sequences, cross modifiers and score-changing
constraints never touch it). -/
theorem c5_circadian_formula (cell : ℝ) (events : List Event) (est : ℤ) :
    ((estimate_at_time cell events est).1.primitives .circadianPhase).base_score =
      rclamp (0.5 + (avg_sleep_hour events - 23.0) / 10.0 + light_adjustment events est) 0 1 ∧
    ((estimate_at_time cell events est).1.primitives .circadianPhase).modified_score =
      ((estimate_at_time cell events est).1.primitives .circadianPhase).base_score := by
  constructor
  · rfl
  · have htarget : ∀ s ∈ detect_sequences events est,
        Primitive.circadianPhase.as_str ≠ s.impact_on_primitive := by
      intro s hs
      rcases detect_sequences_target events est s hs with h | h <;>
        rw [h] <;> simp [Primitive.as_str]
    have hadj : apply_sequence_adjustments (pass1_base_scores events est)
        (detect_sequences events est) .circadianPhase =
        pass1_base_scores events est .circadianPhase :=
      seq_adjust_other _ _ _ htarget
    have hcross : (cross_stage events est).1 .circadianPhase =
        apply_sequence_adjustments (pass1_base_scores events est)
          (detect_sequences events est) .circadianPhase := rfl
    have hpen : ∀ c ∈ all_constraints events est,
        c.affects_primitive = Primitive.circadianPhase →
        ∃ q, c.constraint_type = ConstraintType.confidencePenalty q := by
      intro c hc hp
      rcases mem_all_constraints events est c hc with ⟨m, _, hmem⟩
      exact constraint_circadian_penalty m est c hmem hp
    have hval : (validation_stage events est).scores .circadianPhase =
        (cross_stage events est).1 .circadianPhase :=
      validation_preserves_score _ events est _ hpen
    show (validation_stage events est).scores .circadianPhase =
      pass1_base_scores events est .circadianPhase
    rw [hval, hcross, hadj]

/-- C5 (counterexample): `compute_circadian_phase_special` averages the
first seven sleep events in log order with no recency filter.  Reversing a
chronologically ascending log of eight sleep events (one 01:00 onset, then
seven 23:00 onsets) leaves the event set — and so the seven most recent
sleeps — unchanged, yet the score moves from 0.225 to 0.5, so no rule that
reads the up-to-7 most recent sleep events can describe it. -/
theorem c5_counterexample :
    compute_circadian_phase_special
        [⟨"s1", "sleep", 60, none, []⟩,
         ⟨"s2", "sleep", 2820, none, []⟩,
         ⟨"s3", "sleep", 4260, none, []⟩,
         ⟨"s4", "sleep", 5700, none, []⟩,
         ⟨"s5", "sleep", 7140, none, []⟩,
         ⟨"s6", "sleep", 8580, none, []⟩,
         ⟨"s7", "sleep", 10020, none, []⟩,
         ⟨"s8", "sleep", 11460, none, []⟩] 14400 = 0.225 ∧
    compute_circadian_phase_special
        ([⟨"s1", "sleep", 60, none, []⟩,
         ⟨"s2", "sleep", 2820, none, []⟩,
         ⟨"s3", "sleep", 4260, none, []⟩,
         ⟨"s4", "sleep", 5700, none, []⟩,
         ⟨"s5", "sleep", 7140, none, []⟩,
         ⟨"s6", "sleep", 8580, none, []⟩,
         ⟨"s7", "sleep", 10020, none, []⟩,
         ⟨"s8", "sleep", 11460, none, []⟩].reverse) 14400 = 0.5 := by
  have e1 : (hourOf 60 : ℤ) = 1 := by decide
  have e2 : (hourOf 2820 : ℤ) = 23 := by decide
  have e3 : (hourOf 4260 : ℤ) = 23 := by decide
  have e4 : (hourOf 5700 : ℤ) = 23 := by decide
  have e5 : (hourOf 7140 : ℤ) = 23 := by decide
  have e6 : (hourOf 8580 : ℤ) = 23 := by decide
  have e7 : (hourOf 10020 : ℤ) = 23 := by decide
  have e8 : (hourOf 11460 : ℤ) = 23 := by decide
  constructor
  · have havg : avg_sleep_hour
        [⟨"s1", "sleep", 60, none, []⟩,
         ⟨"s2", "sleep", 2820, none, []⟩,
         ⟨"s3", "sleep", 4260, none, []⟩,
         ⟨"s4", "sleep", 5700, none, []⟩,
         ⟨"s5", "sleep", 7140, none, []⟩,
         ⟨"s6", "sleep", 8580, none, []⟩,
         ⟨"s7", "sleep", 10020, none, []⟩,
         ⟨"s8", "sleep", 11460, none, []⟩] = 20.25 := by
      unfold avg_sleep_hour
      rw [show circadianSleepSample
          [⟨"s1", "sleep", 60, none, []⟩,
         ⟨"s2", "sleep", 2820, none, []⟩,
         ⟨"s3", "sleep", 4260, none, []⟩,
         ⟨"s4", "sleep", 5700, none, []⟩,
         ⟨"s5", "sleep", 7140, none, []⟩,
         ⟨"s6", "sleep", 8580, none, []⟩,
         ⟨"s7", "sleep", 10020, none, []⟩,
         ⟨"s8", "sleep", 11460, none, []⟩] =
          [⟨"s1", "sleep", 60, none, []⟩,
           ⟨"s2", "sleep", 2820, none, []⟩,
           ⟨"s3", "sleep", 4260, none, []⟩,
           ⟨"s4", "sleep", 5700, none, []⟩,
           ⟨"s5", "sleep", 7140, none, []⟩,
           ⟨"s6", "sleep", 8580, none, []⟩,
           ⟨"s7", "sleep", 10020, none, []⟩] from rfl]
      simp only [List.foldl_cons, List.foldl_nil, List.length_cons, List.length_nil,
        e1, e2, e3, e4, e5, e6, e7]
      norm_num
    unfold compute_circadian_phase_special
    rw [havg, show light_adjustment
        [⟨"s1", "sleep", 60, none, []⟩,
         ⟨"s2", "sleep", 2820, none, []⟩,
         ⟨"s3", "sleep", 4260, none, []⟩,
         ⟨"s4", "sleep", 5700, none, []⟩,
         ⟨"s5", "sleep", 7140, none, []⟩,
         ⟨"s6", "sleep", 8580, none, []⟩,
         ⟨"s7", "sleep", 10020, none, []⟩,
         ⟨"s8", "sleep", 11460, none, []⟩] 14400 = 0 from rfl]
    rw [rclamp_eq_self _ _ _ (by norm_num) (by norm_num)]
    norm_num
  · have havg : avg_sleep_hour
        ([⟨"s1", "sleep", 60, none, []⟩,
         ⟨"s2", "sleep", 2820, none, []⟩,
         ⟨"s3", "sleep", 4260, none, []⟩,
         ⟨"s4", "sleep", 5700, none, []⟩,
         ⟨"s5", "sleep", 7140, none, []⟩,
         ⟨"s6", "sleep", 8580, none, []⟩,
         ⟨"s7", "sleep", 10020, none, []⟩,
         ⟨"s8", "sleep", 11460, none, []⟩].reverse) = 23 := by
      unfold avg_sleep_hour
      rw [show circadianSleepSample
          ([⟨"s1", "sleep", 60, none, []⟩,
         ⟨"s2", "sleep", 2820, none, []⟩,
         ⟨"s3", "sleep", 4260, none, []⟩,
         ⟨"s4", "sleep", 5700, none, []⟩,
         ⟨"s5", "sleep", 7140, none, []⟩,
         ⟨"s6", "sleep", 8580, none, []⟩,
         ⟨"s7", "sleep", 10020, none, []⟩,
         ⟨"s8", "sleep", 11460, none, []⟩].reverse) =
          [⟨"s8", "sleep", 11460, none, []⟩,
           ⟨"s7", "sleep", 10020, none, []⟩,
           ⟨"s6", "sleep", 8580, none, []⟩,
           ⟨"s5", "sleep", 7140, none, []⟩,
           ⟨"s4", "sleep", 5700, none, []⟩,
           ⟨"s3", "sleep", 4260, none, []⟩,
           ⟨"s2", "sleep", 2820, none, []⟩] from rfl]
      simp only [List.foldl_cons, List.foldl_nil, List.length_cons, List.length_nil,
        e2, e3, e4, e5, e6, e7, e8]
      norm_num
    unfold compute_circadian_phase_special
    rw [havg, show light_adjustment
        ([⟨"s1", "sleep", 60, none, []⟩,
         ⟨"s2", "sleep", 2820, none, []⟩,
         ⟨"s3", "sleep", 4260, none, []⟩,
         ⟨"s4", "sleep", 5700, none, []⟩,
         ⟨"s5", "sleep", 7140, none, []⟩,
         ⟨"s6", "sleep", 8580, none, []⟩,
         ⟨"s7", "sleep", 10020, none, []⟩,
         ⟨"s8", "sleep", 11460, none, []⟩].reverse) 14400 = 0 from rfl]
    rw [rclamp_eq_self _ _ _ (by norm_num) (by norm_num)]
    norm_num

/-- An event that is not a health-value event never yields a measurement. -/
theorem extractOne_none (est : ℤ) (e : Event) (h : isHealthValueEvent e = false) :
    extractOne est e = none := by
  unfold extractOne
  split_ifs with hw
  · rfl
  · unfold isHealthValueEvent at h
    cases hh : healthTypeOf e.event_type with
    | none => simp [hh]
    | some mt =>
      cases hv : propNum e "value" with
      | none => simp [hh, hv]
      | some w =>
        rw [hh, hv] at h
        simp at h

/-- A list of events none of which yields a measurement extracts to
nothing. -/
theorem filterMap_none_of_all (est : ℤ) (l : List Event)
    (h : ∀ e ∈ l, extractOne est e = none) : l.filterMap (extractOne est) = [] := by
  induction l with
  | nil => rfl
  | cons r rr ih =>
    rw [List.filterMap_cons, h r (List.mem_cons_self _ _)]
    exact ih (fun e' hm => h e' (List.mem_cons_of_mem _ hm))

/-- When the log holds exactly one health-value event and it yields a
measurement, extraction returns exactly that measurement. -/
theorem extract_single (events : List Event) (est : ℤ) (e₀ : Event)
    (m : PhysiologicalMeasurement)
    (hf : events.filter isHealthValueEvent = [e₀])
    (he : extractOne est e₀ = some m) :
    extract_physiological_measurements events est = [m] := by
  unfold extract_physiological_measurements
  induction events with
  | nil => simp at hf
  | cons e rest ih =>
    cases hb : isHealthValueEvent e with
    | false =>
      rw [List.filter_cons] at hf
      rw [hb] at hf
      simp only [Bool.false_eq_true, if_false] at hf
      rw [List.filterMap_cons, extractOne_none est e hb]
      exact ih hf
    | true =>
      rw [List.filter_cons] at hf
      rw [hb] at hf
      simp only [if_true] at hf
      rw [List.cons.injEq] at hf
      obtain ⟨rfl, hrest⟩ := hf
      rw [List.filterMap_cons, he]
      have hnone : ∀ e' ∈ rest, extractOne est e' = none := by
        intro e' hm
        apply extractOne_none
        by_contra hbb
        have hb' : isHealthValueEvent e' = true := by
          cases hx : isHealthValueEvent e'
          · exact absurd hx hbb
          · rfl
        have : e' ∈ rest.filter isHealthValueEvent := List.mem_filter.mpr ⟨hm, hb'⟩
        rw [hrest] at this
        exact absurd this (List.not_mem_nil e')
      rw [filterMap_none_of_all est rest hnone]

/-- C8 (amended): when the only health-value event of the log is a steps
reading below 2000 taken between 12 and 24 hours (not 30: extraction
drops anything older than 24 hours) before the query, the validation pass
leaves every score unchanged, sets dopamine confidence to 0.6 (impact
-0.4), keeps all other confidences at 1, and emits exactly one
applied-constraint record; the estimation result reports the 0.6 dopamine
confidence. -/
theorem c8_steps_constraint (cell : ℝ) (events : List Event) (est : ℤ) (e₀ : Event) (v : ℝ)
    (hf : events.filter isHealthValueEvent = [e₀])
    (htype : e₀.event_type = "health_steps")
    (hval : propNum e₀ "value" = some v)
    (hv : v < 2000)
    (h12 : 720 ≤ est - e₀.timestamp)
    (h24 : est - e₀.timestamp ≤ 1440) :
    (∀ scores : Primitive → ℝ,
      (apply_physiological_validation scores events est).scores = scores ∧
      (apply_physiological_validation scores events est).conf .dopamine = 0.6 ∧
      (∀ p, p ≠ .dopamine → (apply_physiological_validation scores events est).conf p = 1) ∧
      (apply_physiological_validation scores events est).applied =
        [⟨"dopamine", "Steps", scores .dopamine, scores .dopamine, -0.4,
          "Very low activity contradicts high dopamine predictions"⟩]) ∧
    ((estimate_at_time cell events est).1.primitives .dopamine).confidence = 0.6 := by
  have hm : extractOne est e₀ = some ⟨.steps, v, e₀.timestamp, strOr e₀ "unit" ""⟩ := by
    unfold extractOne
    rw [if_neg (by omega)]
    rw [htype]
    simp only [show healthTypeOf "health_steps" = some MeasurementType.steps from rfl, hval]
  have hextract : extract_physiological_measurements events est =
      [⟨.steps, v, e₀.timestamp, strOr e₀ "unit" ""⟩] :=
    extract_single events est e₀ _ hf hm
  have h720 : (720 : ℝ) ≤ ((est - e₀.timestamp : ℤ) : ℝ) := by exact_mod_cast h12
  have h1440 : ((est - e₀.timestamp : ℤ) : ℝ) ≤ 1440 := by exact_mod_cast h24
  have hhours12 : (12 : ℝ) ≤ hoursAgo est e₀.timestamp := by
    unfold hoursAgo
    rw [le_div_iff₀ (by norm_num : (0:ℝ) < 60)]
    linarith
  have hhours30 : hoursAgo est e₀.timestamp ≤ 30 := by
    unfold hoursAgo
    rw [div_le_iff₀ (by norm_num : (0:ℝ) < 60)]
    linarith
  have hcons : all_constraints events est =
      [⟨.steps, v, .dopamine, .confidencePenalty 0.6,
        "Very low activity contradicts high dopamine predictions"⟩] := by
    unfold all_constraints
    rw [hextract]
    simp only [List.foldl_cons, List.foldl_nil, List.nil_append]
    show generate_steps_constraints v (hoursAgo est e₀.timestamp) = _
    unfold generate_steps_constraints
    rw [if_neg (by push_neg; exact ⟨hhours12, hhours30⟩), if_pos hv]
  have hempty : ¬ (extract_physiological_measurements events est).isEmpty = true := by
    rw [hextract]
    simp
  have hgen : ∀ scores : Primitive → ℝ,
      (apply_physiological_validation scores events est).scores = scores ∧
      (apply_physiological_validation scores events est).conf .dopamine = 0.6 ∧
      (∀ p, p ≠ .dopamine → (apply_physiological_validation scores events est).conf p = 1) ∧
      (apply_physiological_validation scores events est).applied =
        [⟨"dopamine", "Steps", scores .dopamine, scores .dopamine, -0.4,
          "Very low activity contradicts high dopamine predictions"⟩] := by
    intro scores
    have hone : apply_physiological_validation scores events est =
        apply_one_constraint ⟨scores, fun _ => 1, []⟩
          ⟨.steps, v, .dopamine, .confidencePenalty 0.6,
            "Very low activity contradicts high dopamine predictions"⟩ := by
      unfold apply_physiological_validation
      rw [if_neg hempty, hcons]
      rfl
    rw [hone]
    refine ⟨?_, ?_, ?_, ?_⟩
    · funext p
      show updFn scores Primitive.dopamine (scores Primitive.dopamine) p = scores p
      unfold updFn
      split_ifs with hp
      · rw [hp]
      · rfl
    · show updFn (fun _ => (1:ℝ)) Primitive.dopamine
        (rclamp ((1:ℝ) + -(1 - 0.6)) 0.1 1) Primitive.dopamine = 0.6
      unfold updFn
      rw [if_pos rfl, rclamp_eq_self _ _ _ (by norm_num) (by norm_num)]
      norm_num
    · intro p hp
      show updFn (fun _ => (1:ℝ)) Primitive.dopamine
        (rclamp ((1:ℝ) + -(1 - 0.6)) 0.1 1) p = 1
      unfold updFn
      rw [if_neg hp]
    · simp only [apply_one_constraint]
      rw [if_pos (Or.inr (by
        rw [show (-(1 - 0.6) : ℝ) = -0.4 from by norm_num, abs_neg,
          abs_of_nonneg (by norm_num : (0:ℝ) ≤ 0.4)]
        norm_num))]
      simp only [List.nil_append, List.cons.injEq, and_true,
        PhysiologicalConstraintApplied.mk.injEq]
      norm_num
      exact ⟨rfl, rfl⟩
  refine ⟨hgen, ?_⟩
  show (validation_stage events est).conf .dopamine = 0.6
  exact (hgen ((cross_stage events est).1)).2.1

/-- C8 witness: the amended steps-constraint behaviour at a concrete log
with a 1000-step reading 15 hours before the query. -/
theorem c8_steps_constraint_witness :
    ((estimate_at_time 0.3
        [⟨"st", "health_steps", 540, none, [("value", JVal.num 1000)]⟩]
        1440).1.primitives .dopamine).confidence = 0.6 :=
  (c8_steps_constraint 0.3
    [⟨"st", "health_steps", 540, none, [("value", JVal.num 1000)]⟩] 1440
    ⟨"st", "health_steps", 540, none, [("value", JVal.num 1000)]⟩ 1000
    rfl rfl rfl (by norm_num) (by decide) (by decide)).2

/-- C8 (counterexample): a sub-2000 steps reading 25 hours old lies inside
the claimed 12-30 hour gate, but extraction drops measurements older than
24 hours, so the validation pass applies nothing: dopamine confidence
stays 1 (not 0.6) and no applied-constraint record is emitted. -/
theorem c8_counterexample :
    ((estimate_at_time 0.3
        [⟨"st", "health_steps", 1380, none, [("value", JVal.num 1000)]⟩]
        2880).1.primitives .dopamine).confidence = 1 ∧
    (estimate_at_time 0.3
        [⟨"st", "health_steps", 1380, none, [("value", JVal.num 1000)]⟩]
        2880).1.physiological_constraints = [] ∧
    hoursAgo 2880 1380 = 25 ∧
    (1 : ℝ) ≠ 0.6 := by
  refine ⟨rfl, rfl, ?_, by norm_num⟩
  unfold hoursAgo
  norm_num

/-! ## Monotonicity of the adenosine pass (claim C4) -/

theorem rclamp_eq_of_hi_le (x lo hi : ℝ) (h : hi ≤ x) : rclamp x lo hi = hi := by
  unfold rclamp
  rw [min_eq_right (le_trans h (le_max_left x lo))]

theorem rclamp01_strict (x y : ℝ) (hxy : x < y) (hy : rclamp y 0 1 < 1)
    (hx : 0 < rclamp x 0 1) : rclamp x 0 1 < rclamp y 0 1 := by
  unfold rclamp at *
  have hmy : max y 0 < 1 := by
    by_contra hcon
    push_neg at hcon
    rw [min_eq_right hcon] at hy
    exact lt_irrefl _ hy
  have hmx : 0 < max x 0 := by
    by_contra hcon
    push_neg at hcon
    rw [min_eq_left (le_trans hcon (by norm_num))] at hx
    exact absurd hx (not_lt.mpr hcon)
  have hx0 : 0 < x := by
    rcases le_or_lt x 0 with h | h
    · rw [max_eq_right h] at hmx
      exact absurd hmx (lt_irrefl 0)
    · exact h
  have hy1 : y < 1 := by
    have hyy : max y 0 = y := max_eq_left (by linarith)
    rwa [hyy] at hmy
  rw [max_eq_left hx0.le, max_eq_left (by linarith : (0:ℝ) ≤ y)]
  rw [min_eq_left (by linarith), min_eq_left (by linarith)]
  exact hxy

theorem mostRecentWakeMarker_le (events : List Event) (est : ℤ) (w : ℤ)
    (h : mostRecentWakeMarker events est = some w) : w ≤ est := by
  unfold mostRecentWakeMarker at h
  revert h
  suffices h' : ∀ acc : Option ℤ, (∀ x, acc = some x → x ≤ est) →
      events.foldl (wakeStep est) acc = some w → w ≤ est from
    h' none (by intro x hx; cases hx)
  induction events with
  | nil =>
    intro acc hacc hw
    exact hacc w hw
  | cons e rest ih =>
    intro acc hacc hw
    rw [List.foldl_cons] at hw
    refine ih _ (fun x hx => ?_) hw
    unfold wakeStep at hx
    by_cases h1 : est < e.timestamp
    · rw [if_pos h1] at hx
      exact hacc x hx
    · rw [if_neg h1] at hx
      by_cases h2 : e.event_type = "wake"
      · rw [if_pos h2] at hx
        injection hx with h3
        omega
      · rw [if_neg h2] at hx
        by_cases h3 : e.event_type = "sleep"
        · rw [if_pos h3] at hx
          cases het : e.end_timestamp with
          | none =>
            rw [het] at hx
            exact hacc x hx
          | some et =>
            rw [het] at hx
            dsimp only at hx
            by_cases h4 : et ≤ est
            · rw [if_pos h4] at hx
              injection hx with h5
              omega
            · rw [if_neg h4] at hx
              exact hacc x hx
        · rw [if_neg h3] at hx
          exact hacc x hx

theorem wakeStep_congr (t₁ t₂ w : ℤ) (hw1 : w ≤ t₁) (h12 : t₁ ≤ t₂) (e : Event)
    (he : (e.event_type = "sleep" ∨ e.event_type = "wake") →
      e.timestamp ≤ w ∧ ∀ et, e.end_timestamp = some et → et ≤ w) (acc : Option ℤ) :
    wakeStep t₁ acc e = wakeStep t₂ acc e := by
  unfold wakeStep
  by_cases hwk : e.event_type = "wake"
  · have hts := (he (Or.inr hwk)).1
    rw [if_neg (by omega : ¬ t₁ < e.timestamp), if_neg (by omega : ¬ t₂ < e.timestamp)]
    rw [if_pos hwk, if_pos hwk]
  · by_cases hsl : e.event_type = "sleep"
    · have hts := (he (Or.inl hsl)).1
      have hend := (he (Or.inl hsl)).2
      rw [if_neg (by omega : ¬ t₁ < e.timestamp), if_neg (by omega : ¬ t₂ < e.timestamp)]
      rw [if_neg hwk, if_neg hwk, if_pos hsl, if_pos hsl]
      cases het : e.end_timestamp with
      | none => rfl
      | some et =>
        have hetw := hend et het
        dsimp only
        rw [if_pos (by omega : et ≤ t₁), if_pos (by omega : et ≤ t₂)]
    · rw [if_neg hwk, if_neg hwk, if_neg hsl, if_neg hsl]
      split_ifs <;> rfl

theorem mostRecentWakeMarker_congr (events : List Event) (t₁ t₂ w : ℤ)
    (hw1 : w ≤ t₁) (h12 : t₁ ≤ t₂)
    (hq : ∀ e ∈ events, (e.event_type = "sleep" ∨ e.event_type = "wake") →
      e.timestamp ≤ w ∧ ∀ et, e.end_timestamp = some et → et ≤ w) :
    mostRecentWakeMarker events t₂ = mostRecentWakeMarker events t₁ := by
  unfold mostRecentWakeMarker
  suffices h' : ∀ acc : Option ℤ, (∀ e ∈ events,
      (e.event_type = "sleep" ∨ e.event_type = "wake") →
        e.timestamp ≤ w ∧ ∀ et, e.end_timestamp = some et → et ≤ w) →
      events.foldl (wakeStep t₂) acc = events.foldl (wakeStep t₁) acc from h' none hq
  clear hq
  induction events with
  | nil => intro acc _; rfl
  | cons e rest ih =>
    intro acc hq'
    rw [List.foldl_cons, List.foldl_cons]
    rw [← wakeStep_congr t₁ t₂ w hw1 h12 e (hq' e (List.mem_cons_self _ _)) acc]
    exact ih _ (fun e' hm h' => hq' e' (List.mem_cons_of_mem _ hm) h')

theorem quality_score_nonneg (q : String) : 0 ≤ quality_score_of q := by
  unfold quality_score_of
  split_ifs <;> norm_num

theorem sleep_impact_nonpos (e : Event) (hd : 0 ≤ numOr e "duration_hours" 7.0) :
    (compute_sleep_impacts e Primitive.adenosine).getD 0 ≤ 0 := by
  show -(numOr e "duration_hours" 7.0 / 7.5) *
    quality_score_of (strOr e "quality" "good") * 0.85 ≤ 0
  have hq := quality_score_nonneg (strOr e "quality" "good")
  nlinarith [mul_nonneg (div_nonneg hd (by norm_num : (0:ℝ) ≤ 7.5)) hq]

theorem caffeine_impact_nonpos (e : Event) (hd : 0 ≤ numOr e "dose_mg" 100.0) :
    (compute_caffeine_impacts e Primitive.adenosine).getD 0 ≤ 0 := by
  show -0.5 * min (numOr e "dose_mg" 100.0 / (numOr e "dose_mg" 100.0 + 65.0)) 1 ≤ 0
  have h1 : (0:ℝ) ≤ numOr e "dose_mg" 100.0 / (numOr e "dose_mg" 100.0 + 65.0) :=
    div_nonneg hd (by linarith)
  have h2 : (0:ℝ) ≤ min (numOr e "dose_mg" 100.0 / (numOr e "dose_mg" 100.0 + 65.0)) 1 :=
    le_min h1 (by norm_num)
  nlinarith

theorem nap_impact_nonpos (e : Event) (hd : 0 ≤ numOr e "duration_minutes" 20.0) :
    (compute_nap_impacts e Primitive.adenosine).getD 0 ≤ 0 := by
  show (if numOr e "duration_minutes" 20.0 ≤ 30.0 then
      -0.25 * (numOr e "duration_minutes" 20.0 / 30.0)
    else -0.4 * min (numOr e "duration_minutes" 20.0 / 90.0) 1) ≤ 0
  split_ifs with h
  · nlinarith
  · have h2 : (0:ℝ) ≤ min (numOr e "duration_minutes" 20.0 / 90.0) 1 :=
      le_min (by positivity) (by norm_num)
    nlinarith

theorem sum_map_filter (l : List Event) (p : Event → Bool) (f : Event → ℝ) :
    ((l.filter p).map f).sum = (l.map (fun e => if p e then f e else 0)).sum := by
  induction l with
  | nil => rfl
  | cons e rest ih =>
    cases hb : p e with
    | true => simp [List.filter_cons, hb, ih]
    | false => simp [List.filter_cons, hb, ih]

theorem window_term_mono (t₁ t₂ w wh : ℤ) (hw : w ≤ t₁) (h12 : t₁ < t₂) (e : Event)
    (hts : e.timestamp ≤ w) (c : ℝ) (hc : c ≤ 0) (hl : ℝ) (hhl : 0 < hl) :
    (if inWindow t₁ wh e.timestamp then c * exponential_decay (hoursAgo t₁ e.timestamp) hl
      else 0) ≤
    (if inWindow t₂ wh e.timestamp then c * exponential_decay (hoursAgo t₂ e.timestamp) hl
      else 0) := by
  by_cases h2 : inWindow t₂ wh e.timestamp = true
  · have hcond : t₂ - wh * 60 ≤ e.timestamp ∧ e.timestamp ≤ t₂ := by
      simpa [inWindow] using h2
    have h1 : inWindow t₁ wh e.timestamp = true := by
      simp only [inWindow, decide_eq_true_eq]
      omega
    rw [h1, h2, if_pos rfl, if_pos rfl]
    apply mul_le_mul_of_nonpos_left _ hc
    apply exponential_decay_anti hl hhl
    unfold hoursAgo
    have hcast : ((t₁ - e.timestamp : ℤ) : ℝ) ≤ ((t₂ - e.timestamp : ℤ) : ℝ) := by
      exact_mod_cast (by omega : t₁ - e.timestamp ≤ t₂ - e.timestamp)
    linarith
  · have h2f : inWindow t₂ wh e.timestamp = false := by
      cases hx : inWindow t₂ wh e.timestamp
      · rfl
      · exact absurd hx h2
    rw [h2f]
    rw [if_neg (show ¬ false = true by simp)]
    by_cases h1 : inWindow t₁ wh e.timestamp = true
    · rw [h1, if_pos rfl]
      nlinarith [exponential_decay_pos (hoursAgo t₁ e.timestamp) hl]
    · have h1f : inWindow t₁ wh e.timestamp = false := by
        cases hx : inWindow t₁ wh e.timestamp
        · rfl
        · exact absurd hx h1
      rw [h1f, if_neg (show ¬ false = true by simp)]

theorem sleep_clearance_mono (events : List Event) (t₁ t₂ w : ℤ)
    (hw : w ≤ t₁) (h12 : t₁ < t₂)
    (hend : ∀ e ∈ events, e.event_type = "sleep" →
      ∀ et, e.end_timestamp = some et → et ≤ w)
    (hsl : ∀ e ∈ events, e.event_type = "sleep" → 0 ≤ numOr e "duration_hours" 7.0) :
    sleep_clearance events t₁ ≤ sleep_clearance events t₂ := by
  unfold sleep_clearance
  rw [sum_map_filter, sum_map_filter]
  apply List.sum_le_sum
  intro e he
  dsimp only
  by_cases hsleep : e.event_type = "sleep"
  · cases het : e.end_timestamp with
    | none =>
      have hb1 : adenosineSleepOk t₁ e = false := by simp [adenosineSleepOk, het]
      have hb2 : adenosineSleepOk t₂ e = false := by simp [adenosineSleepOk, het]
      rw [hb1, hb2]
      simp
    | some et =>
      have hetw : et ≤ w := hend e he hsleep et het
      have himp := sleep_impact_nonpos e (hsl e he hsleep)
      by_cases hin2 : adenosineSleepOk t₂ e = true
      · have hcond2 : t₂ - 1200 ≤ et ∧ et ≤ t₂ := by
          simpa [adenosineSleepOk, hsleep, het] using hin2
        have hin1 : adenosineSleepOk t₁ e = true := by
          simp only [adenosineSleepOk, het, Bool.and_eq_true, decide_eq_true_eq]
          exact ⟨hsleep, by omega⟩
        rw [hin1, hin2, if_pos rfl, if_pos rfl]
        simp only [Option.getD_some]
        apply mul_le_mul_of_nonpos_left _ himp
        apply exponential_decay_anti 16.0 (by norm_num)
        unfold hoursAgo
        have hcast : ((t₁ - et : ℤ) : ℝ) ≤ ((t₂ - et : ℤ) : ℝ) := by
          exact_mod_cast (by omega : t₁ - et ≤ t₂ - et)
        linarith
      · have hb2 : adenosineSleepOk t₂ e = false := by
          cases hx : adenosineSleepOk t₂ e
          · rfl
          · exact absurd hx hin2
        rw [hb2, if_neg (show ¬ false = true by simp)]
        by_cases hin1 : adenosineSleepOk t₁ e = true
        · rw [hin1, if_pos rfl]
          simp only [Option.getD_some]
          have hmul := mul_le_mul_of_nonpos_left
            (exponential_decay_pos (hoursAgo t₁ et) 16.0).le himp
          simpa using hmul
        · have hb1 : adenosineSleepOk t₁ e = false := by
            cases hx : adenosineSleepOk t₁ e
            · rfl
            · exact absurd hx hin1
          rw [hb1, if_neg (show ¬ false = true by simp)]
  · have hb1 : adenosineSleepOk t₁ e = false := by simp [adenosineSleepOk, hsleep]
    have hb2 : adenosineSleepOk t₂ e = false := by simp [adenosineSleepOk, hsleep]
    rw [hb1, hb2]
    simp

theorem caffeine_suppression_mono (events : List Event) (t₁ t₂ w : ℤ)
    (hw : w ≤ t₁) (h12 : t₁ < t₂)
    (hts : ∀ e ∈ events, e.event_type = "caffeine" → e.timestamp ≤ w)
    (hdose : ∀ e ∈ events, e.event_type = "caffeine" → 0 ≤ numOr e "dose_mg" 100.0) :
    caffeine_suppression events t₁ ≤ caffeine_suppression events t₂ := by
  unfold caffeine_suppression
  rw [sum_map_filter, sum_map_filter]
  apply List.sum_le_sum
  intro e he
  dsimp only
  by_cases hcaf : e.event_type = "caffeine"
  · have hd1 : (decide (e.event_type = "caffeine") && inWindow t₁ 12 e.timestamp) =
        inWindow t₁ 12 e.timestamp := by simp [hcaf]
    have hd2 : (decide (e.event_type = "caffeine") && inWindow t₂ 12 e.timestamp) =
        inWindow t₂ 12 e.timestamp := by simp [hcaf]
    rw [hd1, hd2]
    exact window_term_mono t₁ t₂ w 12 hw h12 e (hts e he hcaf) _
      (caffeine_impact_nonpos e (hdose e he hcaf)) 5.0 (by norm_num)
  · have hb1 : (decide (e.event_type = "caffeine") && inWindow t₁ 12 e.timestamp) = false := by
      simp [hcaf]
    have hb2 : (decide (e.event_type = "caffeine") && inWindow t₂ 12 e.timestamp) = false := by
      simp [hcaf]
    rw [hb1, hb2]
    simp

theorem nap_clearance_mono (events : List Event) (t₁ t₂ w : ℤ)
    (hw : w ≤ t₁) (h12 : t₁ < t₂)
    (hts : ∀ e ∈ events, e.event_type = "nap" → e.timestamp ≤ w)
    (hdur : ∀ e ∈ events, e.event_type = "nap" → 0 ≤ numOr e "duration_minutes" 20.0) :
    nap_clearance events t₁ ≤ nap_clearance events t₂ := by
  unfold nap_clearance
  rw [sum_map_filter, sum_map_filter]
  apply List.sum_le_sum
  intro e he
  dsimp only
  by_cases hnap : e.event_type = "nap"
  · have hd1 : (decide (e.event_type = "nap") && inWindow t₁ 20 e.timestamp) =
        inWindow t₁ 20 e.timestamp := by simp [hnap]
    have hd2 : (decide (e.event_type = "nap") && inWindow t₂ 20 e.timestamp) =
        inWindow t₂ 20 e.timestamp := by simp [hnap]
    rw [hd1, hd2]
    exact window_term_mono t₁ t₂ w 20 hw h12 e (hts e he hnap) _
      (nap_impact_nonpos e (hdur e he hnap)) 8.0 (by norm_num)
  · have hb1 : (decide (e.event_type = "nap") && inWindow t₁ 20 e.timestamp) = false := by
      simp [hnap]
    have hb2 : (decide (e.event_type = "nap") && inWindow t₂ 20 e.timestamp) = false := by
      simp [hnap]
    rw [hb1, hb2]
    simp

/-- C4 (amended): over a log whose sleep, wake, nap, caffeine and
screen-time events (starts and sleep ends) all precede the last wake
marker, and whose sleep durations, nap durations and caffeine doses are
nonnegative, a later query time (strictly more hours awake) never lowers
the adenosine score, and raises it strictly whenever the scores sit
strictly inside the `[0, 1]` clamp. -/
theorem c4_adenosine_monotonic (events : List Event) (t₁ t₂ w : ℤ)
    (hw : mostRecentWakeMarker events t₁ = some w)
    (h12 : t₁ < t₂)
    (hq : ∀ e ∈ events,
      (e.event_type = "sleep" ∨ e.event_type = "wake" ∨ e.event_type = "nap" ∨
        e.event_type = "caffeine" ∨ e.event_type = "screen_time") →
      e.timestamp ≤ w ∧ ∀ et, e.end_timestamp = some et → et ≤ w)
    (hsl : ∀ e ∈ events, e.event_type = "sleep" → 0 ≤ numOr e "duration_hours" 7.0)
    (hcaf : ∀ e ∈ events, e.event_type = "caffeine" → 0 ≤ numOr e "dose_mg" 100.0)
    (hnap : ∀ e ∈ events, e.event_type = "nap" → 0 ≤ numOr e "duration_minutes" 20.0) :
    compute_adenosine_special events t₁ ≤ compute_adenosine_special events t₂ ∧
    (compute_adenosine_special events t₂ < 1 → 0 < compute_adenosine_special events t₁ →
      compute_adenosine_special events t₁ < compute_adenosine_special events t₂) := by
  have hwle : w ≤ t₁ := mostRecentWakeMarker_le events t₁ w hw
  have hq2 : ∀ e ∈ events, (e.event_type = "sleep" ∨ e.event_type = "wake") →
      e.timestamp ≤ w ∧ ∀ et, e.end_timestamp = some et → et ≤ w := by
    intro e he h
    rcases h with h | h
    · exact hq e he (Or.inl h)
    · exact hq e he (Or.inr (Or.inl h))
  have hm2 : mostRecentWakeMarker events t₂ = some w := by
    rw [mostRecentWakeMarker_congr events t₁ t₂ w hwle h12.le hq2]
    exact hw
  have hh1 : hoursAwake events t₁ = ((t₁ - w : ℤ) : ℝ) / 60 := by
    unfold hoursAwake
    rw [hw]
    refine max_eq_left ?_
    unfold hoursAgo
    have h0 : (0:ℝ) ≤ ((t₁ - w : ℤ) : ℝ) := by
      exact_mod_cast (by omega : (0:ℤ) ≤ t₁ - w)
    exact div_nonneg h0 (by norm_num)
  have hh2 : hoursAwake events t₂ = ((t₂ - w : ℤ) : ℝ) / 60 := by
    unfold hoursAwake
    rw [hm2]
    refine max_eq_left ?_
    unfold hoursAgo
    have h0 : (0:ℝ) ≤ ((t₂ - w : ℤ) : ℝ) := by
      exact_mod_cast (by omega : (0:ℤ) ≤ t₂ - w)
    exact div_nonneg h0 (by norm_num)
  have hhle : 0 ≤ hoursAwake events t₁ := by
    rw [hh1]
    exact div_nonneg (by exact_mod_cast (by omega : (0:ℤ) ≤ t₁ - w)) (by norm_num)
  have hhlt : hoursAwake events t₁ < hoursAwake events t₂ := by
    rw [hh1, hh2]
    have hc : ((t₁ - w : ℤ) : ℝ) < ((t₂ - w : ℤ) : ℝ) := by
      exact_mod_cast (by omega : t₁ - w < t₂ - w)
    linarith
  have hexp1le : Real.exp (-(hoursAwake events t₁) / 16.0) ≤ 1 := by
    rw [show (1:ℝ) = Real.exp 0 from (Real.exp_zero).symm]
    apply Real.exp_le_exp.mpr
    nlinarith
  have hexp2le : Real.exp (-(hoursAwake events t₂) / 16.0) ≤ 1 := by
    rw [show (1:ℝ) = Real.exp 0 from (Real.exp_zero).symm]
    apply Real.exp_le_exp.mpr
    nlinarith
  have hBA1 : rclamp (1 - Real.exp (-(hoursAwake events t₁) / 16.0)) 0 1 =
      1 - Real.exp (-(hoursAwake events t₁) / 16.0) :=
    rclamp_eq_self _ _ _ (by linarith)
      (by linarith [Real.exp_pos (-(hoursAwake events t₁) / 16.0)])
  have hBA2 : rclamp (1 - Real.exp (-(hoursAwake events t₂) / 16.0)) 0 1 =
      1 - Real.exp (-(hoursAwake events t₂) / 16.0) :=
    rclamp_eq_self _ _ _ (by linarith)
      (by linarith [Real.exp_pos (-(hoursAwake events t₂) / 16.0)])
  have hBAlt : 1 - Real.exp (-(hoursAwake events t₁) / 16.0) <
      1 - Real.exp (-(hoursAwake events t₂) / 16.0) := by
    have hm := Real.exp_lt_exp.mpr
      (show -(hoursAwake events t₂) / 16.0 < -(hoursAwake events t₁) / 16.0 by linarith)
    linarith
  have hS := sleep_clearance_mono events t₁ t₂ w hwle h12
    (fun e he hs et het => (hq e he (Or.inl hs)).2 et het)
    (fun e he hs => hsl e he hs)
  have hN := nap_clearance_mono events t₁ t₂ w hwle h12
    (fun e he hn => (hq e he (Or.inr (Or.inr (Or.inl hn)))).1)
    (fun e he hn => hnap e he hn)
  have hK := caffeine_suppression_mono events t₁ t₂ w hwle h12
    (fun e he hc => (hq e he (Or.inr (Or.inr (Or.inr (Or.inl hc))))).1)
    (fun e he hc => hcaf e he hc)
  have e1 : compute_adenosine_special events t₁ =
      rclamp (0.3 + (1 - Real.exp (-(hoursAwake events t₁) / 16.0)) +
        (sleep_clearance events t₁ + nap_clearance events t₁) +
        caffeine_suppression events t₁) 0 1 := by
    unfold compute_adenosine_special
    rw [hBA1]
  have e2 : compute_adenosine_special events t₂ =
      rclamp (0.3 + (1 - Real.exp (-(hoursAwake events t₂) / 16.0)) +
        (sleep_clearance events t₂ + nap_clearance events t₂) +
        caffeine_suppression events t₂) 0 1 := by
    unfold compute_adenosine_special
    rw [hBA2]
  have hinnerlt : 0.3 + (1 - Real.exp (-(hoursAwake events t₁) / 16.0)) +
      (sleep_clearance events t₁ + nap_clearance events t₁) +
      caffeine_suppression events t₁ <
      0.3 + (1 - Real.exp (-(hoursAwake events t₂) / 16.0)) +
      (sleep_clearance events t₂ + nap_clearance events t₂) +
      caffeine_suppression events t₂ := by
    linarith
  rw [e1, e2]
  exact ⟨rclamp_mono _ _ _ _ hinnerlt.le,
    fun h2 h1 => rclamp01_strict _ _ hinnerlt h2 h1⟩

/-- C4 witness: the amended monotonicity applied to a log holding a single
wake marker at the epoch, queried one and two hours later. -/
theorem c4_adenosine_monotonic_witness :
    compute_adenosine_special [⟨"w1", "wake", 0, none, []⟩] 60 ≤
      compute_adenosine_special [⟨"w1", "wake", 0, none, []⟩] 120 :=
  (c4_adenosine_monotonic [⟨"w1", "wake", 0, none, []⟩] 60 120 0
    rfl (by norm_num)
    (by
      intro e he h
      simp only [List.mem_singleton] at he
      subst he
      exact ⟨le_refl 0, fun et het => by cases het⟩)
    (by
      intro e he h
      simp only [List.mem_singleton] at he
      subst he
      simp at h)
    (by
      intro e he h
      simp only [List.mem_singleton] at he
      subst he
      simp at h)
    (by
      intro e he h
      simp only [List.mem_singleton] at he
      subst he
      simp at h)).1

/-- C4 (counterexample): with a single wake marker 48 and 96 hours before
two query times and no other events, hours awake doubles but both
adenosine scores saturate at the 1.0 clamp, so the later score is not
strictly greater. -/
theorem c4_counterexample :
    hoursAwake [⟨"w1", "wake", 0, none, []⟩] 2880 = 48 ∧
    hoursAwake [⟨"w1", "wake", 0, none, []⟩] 5760 = 96 ∧
    compute_adenosine_special [⟨"w1", "wake", 0, none, []⟩] 2880 = 1 ∧
    compute_adenosine_special [⟨"w1", "wake", 0, none, []⟩] 5760 = 1 := by
  have h4 : (4:ℝ) ≤ Real.exp 3 := by
    have := Real.add_one_le_exp (3:ℝ)
    linarith
  have h3 : Real.exp (-3 : ℝ) ≤ 0.25 := by
    rw [Real.exp_neg]
    have hpos : (0:ℝ) < Real.exp 3 := Real.exp_pos 3
    rw [show (0.25 : ℝ) = 4⁻¹ by norm_num]
    exact inv_le_inv_of_le (by norm_num) h4
  have h6 : Real.exp (-6 : ℝ) ≤ 0.25 :=
    le_trans (Real.exp_le_exp.mpr (by norm_num)) h3
  have h3pos : (0:ℝ) < Real.exp (-3 : ℝ) := Real.exp_pos _
  have h6pos : (0:ℝ) < Real.exp (-6 : ℝ) := Real.exp_pos _
  have hw48 : hoursAwake [⟨"w1", "wake", 0, none, []⟩] 2880 = 48 := by
    unfold hoursAwake
    rw [show mostRecentWakeMarker [⟨"w1", "wake", 0, none, []⟩] 2880 = some 0 from rfl]
    unfold hoursAgo
    norm_num
  have hw96 : hoursAwake [⟨"w1", "wake", 0, none, []⟩] 5760 = 96 := by
    unfold hoursAwake
    rw [show mostRecentWakeMarker [⟨"w1", "wake", 0, none, []⟩] 5760 = some 0 from rfl]
    unfold hoursAgo
    norm_num
  refine ⟨hw48, hw96, ?_, ?_⟩
  · unfold compute_adenosine_special
    rw [hw48]
    rw [show sleep_clearance [⟨"w1", "wake", 0, none, []⟩] 2880 = 0 from rfl,
      show nap_clearance [⟨"w1", "wake", 0, none, []⟩] 2880 = 0 from rfl,
      show caffeine_suppression [⟨"w1", "wake", 0, none, []⟩] 2880 = 0 from rfl]
    rw [show Real.exp (-(48:ℝ) / 16.0) = Real.exp (-3) by norm_num]
    rw [show rclamp (1 - Real.exp (-3:ℝ)) 0 1 = 1 - Real.exp (-3:ℝ) from
      rclamp_eq_self _ _ _ (by linarith) (by linarith)]
    rw [rclamp_eq_of_hi_le _ _ _ (by linarith)]
  · unfold compute_adenosine_special
    rw [hw96]
    rw [show sleep_clearance [⟨"w1", "wake", 0, none, []⟩] 5760 = 0 from rfl,
      show nap_clearance [⟨"w1", "wake", 0, none, []⟩] 5760 = 0 from rfl,
      show caffeine_suppression [⟨"w1", "wake", 0, none, []⟩] 5760 = 0 from rfl]
    rw [show Real.exp (-(96:ℝ) / 16.0) = Real.exp (-6) by norm_num]
    rw [show rclamp (1 - Real.exp (-6:ℝ)) 0 1 = 1 - Real.exp (-6:ℝ) from
      rclamp_eq_self _ _ _ (by linarith) (by linarith)]
    rw [rclamp_eq_of_hi_le _ _ _ (by linarith)]

end NeuroEst

